import Mathlib

/-!
Shallow embedding of the photo routes of spotters-journal
(src/routes/photos.js): the registration-history lifecycle
(create / update / delete of Photo rows with reference-counted cleanup of
RegistrationHistory and SpecificAircraft rows), airport resolution for
airport_code = "other", and the two listing endpoints (my-photos and
my-photos/random).

The relational store is modelled as lists of rows; inserts append, and
`delete ... eq` removes every matching row.  Generated identifiers come
from a `next_uuid` counter.  Image processing and S3 upload/delete have no
database effect and are abstracted away (the generated object URL is a
request parameter).  `parseFloat` on airport coordinates is abstracted:
coordinates are kept as the raw strings (floating point is out of scope
and no claim depends on the numeric values).
-/

deriving instance DecidableEq for Except

namespace SpottersJournal

/-- JS truthiness of an optional string field of `req.body`
(`undefined`, `null` and `""` are falsy). -/
def truthy : Option String → Bool
  | none => false
  | some s => !(s == "")

/-- The `x || null` normalization the routes apply to metadata fields. -/
def orNull (x : Option String) : Option String :=
  if truthy x then x else none

/-- Character-wise uppercasing, modelling `String.prototype.toUpperCase`
on the inputs involved (registration marks and ICAO codes). -/
def upper (s : String) : String := ⟨s.data.map Char.toUpper⟩

structure Airport where
  icao_code : String
  name : String
  latitude : String
  longitude : String
deriving DecidableEq, Repr

structure AircraftType where
  icao_type : String
  manufacturer : String
  type : String
  variant : String
deriving DecidableEq, Repr

structure SpecificAircraft where
  uuid : Nat
  icao_type : String
  manufactured_date : Option String
deriving DecidableEq, Repr

structure RegistrationHistory where
  uuid_rh : Nat
  uuid_sa : Nat
  registration : String
  airline : Option String
  is_current : Bool
deriving DecidableEq, Repr

structure Photo where
  id : Nat
  user_id : Nat
  uuid_rh : Option Nat
  airport_code : Option String
  image_url : Option String
  taken_at : Option String
  shutter_speed : Option String
  iso : Option String
  aperture : Option String
  camera_model : Option String
  focal_length : Option String
deriving DecidableEq, Repr

structure DB where
  airports : List Airport
  aircraft_types : List AircraftType
  specific_aircraft : List SpecificAircraft
  registration_histories : List RegistrationHistory
  photos : List Photo
  next_uuid : Nat
deriving DecidableEq, Repr

/-- All generated identifiers already in the store are below the counter,
so freshly generated identifiers collide with nothing. -/
def DB.fresh (db : DB) : Prop :=
  (∀ s ∈ db.specific_aircraft, s.uuid < db.next_uuid) ∧
  (∀ r ∈ db.registration_histories, r.uuid_rh < db.next_uuid) ∧
  (∀ p ∈ db.photos, p.id < db.next_uuid)

instance (db : DB) : Decidable db.fresh := by
  unfold DB.fresh; infer_instance

/-- Error responses of the photo routes, each with the HTTP status the
route returns for it. -/
inductive ErrResp where
  | airportFieldsRequired : ErrResp
  | airportInsertFailed : ErrResp
  | regNotFound : ErrResp
  | notFoundOrForbidden : ErrResp
  | internalError : ErrResp
deriving DecidableEq, Repr

/-- HTTP status code of each error response, as returned by the routes:
`res.status(400)` for the airport-field validation, `res.status(500)` for
the failed airport insert (including the duplicate-key case), 404 for a
missing registration and for a photo that is absent or not owned. -/
def ErrResp.status : ErrResp → Nat
  | .airportFieldsRequired => 400
  | .airportInsertFailed => 500
  | .regNotFound => 404
  | .notFoundOrForbidden => 404
  | .internalError => 500

/-- Request body of `POST /` (photos.js lines 272-296), after multipart
parsing; `image_url` stands for the S3 URL produced by the upload step. -/
structure CreatePhotoReq where
  registration : Option String := none
  airport_code : Option String := none
  image_url : String := ""
  taken_at : Option String := none
  shutter_speed : Option String := none
  iso : Option String := none
  aperture : Option String := none
  camera_model : Option String := none
  focal_length : Option String := none
  aircraft_type_id : Option String := none
  manufactured_date : Option String := none
  airline_code : Option String := none
  uuid_rh : Option Nat := none
  airport_icao_code : Option String := none
  airport_name : Option String := none
  airport_latitude : Option String := none
  airport_longitude : Option String := none
deriving DecidableEq, Repr

/-- The `!airport_icao_code || !airport_name || ...` validation guard. -/
def airportFieldsPresent (icao nm lat lng : Option String) : Bool :=
  truthy icao && truthy nm && truthy lat && truthy lng

/-- The Airport row built from the request fields: ICAO code uppercased,
the other fields as supplied. -/
def newAirport (icao nm lat lng : Option String) : Airport :=
  { icao_code := upper (icao.getD ""), name := nm.getD "",
    latitude := lat.getD "", longitude := lng.getD "" }

/-- Airport resolution of the POST route (photos.js lines 340-365): when
`airport_code` is "other", all four airport fields must be present, the
new Airport row is inserted (a unique-key violation on `icao_code` makes
the insert fail and the route returns status 500), and the uppercased
ICAO code is substituted. -/
def resolveAirportCreate (db : DB) (req : CreatePhotoReq) :
    DB × Except ErrResp (Option String) :=
  if req.airport_code == some "other" then
    if !(airportFieldsPresent req.airport_icao_code req.airport_name
          req.airport_latitude req.airport_longitude) then
      (db, .error .airportFieldsRequired)
    else
      let code := upper (req.airport_icao_code.getD "")
      if db.airports.any (fun a => a.icao_code == code) then
        (db, .error .airportInsertFailed)
      else
        ({ db with airports := db.airports ++
            [newAirport req.airport_icao_code req.airport_name
              req.airport_latitude req.airport_longitude] },
         .ok (some code))
  else (db, .ok req.airport_code)

/-- RegistrationHistory resolution of the POST route (photos.js lines
367-421): an explicitly supplied `uuid_rh` is used as-is; otherwise with
`aircraft_type_id` a fresh SpecificAircraft and RegistrationHistory pair
is created; otherwise the first RegistrationHistory row whose
registration equals the uppercased input is used, and its absence is a
404.  Calling `.toUpperCase()` on an absent registration throws, which
the route surfaces as a 500; in that case the SpecificAircraft row
already inserted stays. -/
def resolveRHCreate (db : DB) (req : CreatePhotoReq) :
    DB × Except ErrResp Nat :=
  match req.uuid_rh with
  | some r => (db, .ok r)
  | none =>
    if truthy req.aircraft_type_id then
      let saUuid := db.next_uuid
      let sa : SpecificAircraft :=
        { uuid := saUuid, icao_type := req.aircraft_type_id.getD "",
          manufactured_date := orNull req.manufactured_date }
      let db1 := { db with
        specific_aircraft := db.specific_aircraft ++ [sa],
        next_uuid := db.next_uuid + 1 }
      match req.registration with
      | none => (db1, .error .internalError)
      | some reg =>
        let rhUuid := db1.next_uuid
        let rh : RegistrationHistory :=
          { uuid_rh := rhUuid, uuid_sa := saUuid,
            registration := upper reg, airline := req.airline_code,
            is_current := true }
        ({ db1 with
           registration_histories := db1.registration_histories ++ [rh],
           next_uuid := db1.next_uuid + 1 },
         .ok rhUuid)
    else
      match req.registration with
      | none => (db, .error .internalError)
      | some reg =>
        match (db.registration_histories.filter
            (fun r => r.registration == upper reg)).head? with
        | some r => (db, .ok r.uuid_rh)
        | none => (db, .error .regNotFound)

/-- The POST / route (photos.js lines 267-450): resolve the airport, then
the RegistrationHistory reference, then insert the Photo row. -/
def createPhoto (db : DB) (userId : Nat) (req : CreatePhotoReq) :
    DB × Except ErrResp Photo :=
  match resolveAirportCreate db req with
  | (db1, .error e) => (db1, .error e)
  | (db1, .ok airportCode) =>
    match resolveRHCreate db1 req with
    | (db2, .error e) => (db2, .error e)
    | (db2, .ok rhId) =>
      let p : Photo :=
        { id := db2.next_uuid, user_id := userId, uuid_rh := some rhId,
          airport_code := airportCode, image_url := some req.image_url,
          taken_at := orNull req.taken_at,
          shutter_speed := orNull req.shutter_speed,
          iso := orNull req.iso, aperture := orNull req.aperture,
          camera_model := orNull req.camera_model,
          focal_length := orNull req.focal_length }
      let db3 : DB := { db2 with
        photos := db2.photos ++ [p], next_uuid := db2.next_uuid + 1 }
      (db3, .ok p)

/-- The reference-counted cleanup shared by the DELETE route (photos.js
lines 496-530) and the PUT route (lines 696-735): if no Photo references
`rhId` any more, read the RegistrationHistory's `uuid_sa`, delete the
RegistrationHistory row, and delete the SpecificAircraft row if no
RegistrationHistory references it any more.  `cleanupSA` is the second
half: it receives the store with the RegistrationHistory row already
deleted and the row fetched before the deletion. -/
def cleanupSA (db2 : DB) (rhRow : Option RegistrationHistory) : DB :=
  match rhRow with
  | some r =>
    if (db2.registration_histories.filter
        (fun x => x.uuid_sa == r.uuid_sa)).length == 0 then
      { db2 with specific_aircraft :=
        db2.specific_aircraft.filter (fun s => !(s.uuid == r.uuid_sa)) }
    else db2
  | none => db2

def cleanupRH (db : DB) (rhId : Nat) : DB :=
  if (db.photos.filter (fun p => p.uuid_rh == some rhId)).length == 0 then
    cleanupSA
      { db with registration_histories :=
          db.registration_histories.filter (fun r => !(r.uuid_rh == rhId)) }
      (db.registration_histories.find? (fun r => r.uuid_rh == rhId))
  else db

/-- The DELETE /:id route (photos.js lines 452-537): fetch the photo by
id and owner (404 when absent or not owned), best-effort S3 delete (no
database effect), delete the Photo row, then run the cleanup when the
photo's RegistrationHistory reference is set. -/
def deletePhoto (db : DB) (userId photoId : Nat) :
    DB × Except ErrResp String :=
  match db.photos.find?
      (fun p => p.id == photoId && p.user_id == userId) with
  | none => (db, .error .notFoundOrForbidden)
  | some photo =>
    let db1 := { db with
      photos := db.photos.filter (fun p => !(p.id == photoId)) }
    match photo.uuid_rh with
    | none => (db1, .ok "Photo deleted and cleanup performed successfully")
    | some rhId =>
      (cleanupRH db1 rhId,
       .ok "Photo deleted and cleanup performed successfully")

/-- Request body of `PUT /:id` (photos.js lines 542-564). -/
structure UpdatePhotoReq where
  taken_at : Option String := none
  shutter_speed : Option String := none
  iso : Option String := none
  aperture : Option String := none
  camera_model : Option String := none
  focal_length : Option String := none
  aircraft_type_id : Option String := none
  manufactured_date : Option String := none
  airline_code : Option String := none
  uuid_rh : Option Nat := none
  registration : Option String := none
  airport_code : Option String := none
  airport_icao_code : Option String := none
  airport_name : Option String := none
  airport_latitude : Option String := none
  airport_longitude : Option String := none
deriving DecidableEq, Repr

/-- Airport resolution of the PUT route (photos.js lines 585-620): same
validation as the POST route, but a duplicate-key failure of the Airport
insert (Postgres code 23505) is tolerated and the code is used anyway. -/
def resolveAirportUpdate (db : DB) (req : UpdatePhotoReq) :
    DB × Except ErrResp (Option String) :=
  if req.airport_code == some "other" then
    if !(airportFieldsPresent req.airport_icao_code req.airport_name
          req.airport_latitude req.airport_longitude) then
      (db, .error .airportFieldsRequired)
    else
      let code := upper (req.airport_icao_code.getD "")
      if db.airports.any (fun a => a.icao_code == code) then
        (db, .ok (some code))
      else
        ({ db with airports := db.airports ++
            [newAirport req.airport_icao_code req.airport_name
              req.airport_latitude req.airport_longitude] },
         .ok (some code))
  else (db, .ok req.airport_code)

/-- RegistrationHistory resolution of the PUT route (photos.js lines
622-671): an explicitly supplied `uuid_rh` different from the old one is
used; else, when a registration string is supplied, with
`aircraft_type_id` a fresh SpecificAircraft and RegistrationHistory pair
is created, and without it the first matching row is looked up — and when
the lookup finds nothing, the old reference is silently kept (no error is
returned on this path). -/
def resolveRHUpdate (db : DB) (old : Option Nat) (req : UpdatePhotoReq) :
    DB × Option Nat :=
  match req.uuid_rh with
  | some n => if some n ≠ old then (db, some n) else (db, old)
  | none =>
    if truthy req.registration then
      if truthy req.aircraft_type_id then
        let saUuid := db.next_uuid
        let sa : SpecificAircraft :=
          { uuid := saUuid, icao_type := req.aircraft_type_id.getD "",
            manufactured_date := orNull req.manufactured_date }
        let rhUuid := db.next_uuid + 1
        let rh : RegistrationHistory :=
          { uuid_rh := rhUuid, uuid_sa := saUuid,
            registration := upper (req.registration.getD ""),
            airline := orNull req.airline_code, is_current := true }
        ({ db with
           specific_aircraft := db.specific_aircraft ++ [sa],
           registration_histories := db.registration_histories ++ [rh],
           next_uuid := db.next_uuid + 2 },
         some rhUuid)
      else
        match (db.registration_histories.filter (fun r =>
            r.registration == upper (req.registration.getD ""))).head? with
        | some r => (db, some r.uuid_rh)
        | none => (db, old)
    else (db, old)

/-- The update object built at photos.js lines 673-686: the six metadata
fields are always written (empty or absent request values become null),
`airport_code` is written when a value was determined (an absent value is
dropped from the JSON payload and leaves the column unchanged), and
`uuid_rh` is included only when the resolved reference differs from the
old one. -/
def applyUpdates (p : Photo) (req : UpdatePhotoReq)
    (finalAirport : Option String) (finalRH old : Option Nat) : Photo :=
  { p with
    taken_at := orNull req.taken_at,
    shutter_speed := orNull req.shutter_speed,
    iso := orNull req.iso,
    aperture := orNull req.aperture,
    camera_model := orNull req.camera_model,
    focal_length := orNull req.focal_length,
    airport_code := match finalAirport with
      | none => p.airport_code
      | some c => some c,
    uuid_rh := if finalRH ≠ old then finalRH else p.uuid_rh }

/-- The PUT /:id route (photos.js lines 540-742): fetch the photo by id
and owner (404 when absent or not owned), resolve airport and
RegistrationHistory reference, update the Photo row, then run the cleanup
on the old reference when the reference changed and the old one was
set. -/
def updatePhoto (db : DB) (userId photoId : Nat) (req : UpdatePhotoReq) :
    DB × Except ErrResp String :=
  match db.photos.find?
      (fun p => p.id == photoId && p.user_id == userId) with
  | none => (db, .error .notFoundOrForbidden)
  | some currentPhoto =>
    let old := currentPhoto.uuid_rh
    match resolveAirportUpdate db req with
    | (db1, .error e) => (db1, .error e)
    | (db1, .ok finalAirport) =>
      match resolveRHUpdate db1 old req with
      | (db2, finalRH) =>
        let db3 := { db2 with photos := db2.photos.map (fun p =>
          if p.id == photoId && p.user_id == userId then
            applyUpdates p req finalAirport finalRH old
          else p) }
        let db4 :=
          if finalRH ≠ old then
            match old with
            | some o => cleanupRH db3 o
            | none => db3
          else db3
        (db4, .ok "Photo updated successfully")

/-- Query parameters shared by the two listing routes: the free-text
registration search and the parsed aircraftTypeFilter array. -/
structure PhotoQuery where
  search : String := ""
  aircraftTypeFilter : List String := []
deriving DecidableEq, Repr

/-- The RegistrationHistory!inner join of BASE_SELECT. -/
def joinRH (db : DB) (p : Photo) : Option RegistrationHistory :=
  p.uuid_rh.bind (fun r =>
    db.registration_histories.find? (fun rh => rh.uuid_rh == r))

/-- The SpecificAircraft!inner join of BASE_SELECT. -/
def joinSA (db : DB) (rh : RegistrationHistory) : Option SpecificAircraft :=
  db.specific_aircraft.find? (fun s => s.uuid == rh.uuid_sa)

/-- The AircraftType!inner join of BASE_SELECT. -/
def joinAT (db : DB) (sa : SpecificAircraft) : Option AircraftType :=
  db.aircraft_types.find? (fun t => t.icao_type == sa.icao_type)

/-- The ilike `%search%` predicate: case-insensitive substring match. -/
def containsCI (s pat : String) : Bool :=
  decide ((upper pat).toList <:+: (upper s).toList)

/-- The non-user filters of BASE_SELECT's query: the joined
RegistrationHistory must match the search when one is given, the joined
SpecificAircraft's icao_type must be in the filter array when one is
given, and the inner joins themselves drop photos whose reference chain
does not resolve. -/
def restFilters (db : DB) (q : PhotoQuery) (p : Photo) : Bool :=
  match joinRH db p with
  | none => false
  | some rh =>
    (q.search == "" || containsCI rh.registration q.search) &&
    (match joinSA db rh with
     | none => false
     | some sa =>
       (q.aircraftTypeFilter.isEmpty
         || q.aircraftTypeFilter.contains sa.icao_type) &&
       (joinAT db sa).isSome)

/-- The non-user filters of the count query of the random route (photos.js
lines 118-125), whose select joins only down to SpecificAircraft (it does
not join AircraftType). -/
def restCountFilters (db : DB) (q : PhotoQuery) (p : Photo) : Bool :=
  match joinRH db p with
  | none => false
  | some rh =>
    (q.search == "" || containsCI rh.registration q.search) &&
    (match joinSA db rh with
     | none => false
     | some sa =>
       q.aircraftTypeFilter.isEmpty
         || q.aircraftTypeFilter.contains sa.icao_type)

/-- applyPhotoFilters (photos.js lines 40-55) combined with the inner
joins of BASE_SELECT: the photo must belong to the user, and the
non-user filters must hold. -/
def matchesFilters (db : DB) (uid : Nat) (q : PhotoQuery) (p : Photo) :
    Bool :=
  p.user_id == uid && restFilters db q p

/-- applyPhotoFilters combined with the joins of the random route's
count query. -/
def matchesCountFilters (db : DB) (uid : Nat) (q : PhotoQuery)
    (p : Photo) : Bool :=
  p.user_id == uid && restCountFilters db q p

/-- Descending order on taken_at used by `.order("taken_at",
ascending: false)`; rows without a date sort first, matching the store's
default of nulls first on a descending order. -/
def takenBefore (a b : Photo) : Bool :=
  match a.taken_at, b.taken_at with
  | none, _ => true
  | some _, none => false
  | some x, some y => !decide (x < y)

/-- Stable insertion into a list sorted by `takenBefore`. -/
def insertDesc (x : Photo) : List Photo → List Photo
  | [] => [x]
  | y :: ys => if takenBefore x y then x :: y :: ys else y :: insertDesc x ys

/-- Stable sort by `takenBefore`. -/
def sortByTakenDesc : List Photo → List Photo
  | [] => []
  | x :: xs => insertDesc x (sortByTakenDesc xs)

structure PageResult where
  data : List Photo
  total : Nat
  page : Nat
  limit : Nat
deriving DecidableEq, Repr

/-- The GET /my-photos route (photos.js lines 59-99): filter, order by
taken_at descending, count exactly, and return the inclusive range
[(page-1)*limit, (page-1)*limit + limit - 1]. -/
def myPhotos (db : DB) (uid : Nat) (page limit : Nat) (q : PhotoQuery) :
    PageResult :=
  let filtered := sortByTakenDesc (db.photos.filter (matchesFilters db uid q))
  let startIdx := (page - 1) * limit
  { data := (filtered.drop startIdx).take limit,
    total := filtered.length, page := page, limit := limit }

/-- The offset computation of the random route (photos.js lines 134-137):
`Math.floor(Math.random() * (count - limit))` when count > limit, else 0;
`r` stands for the value of `Math.random()`, which lies in [0, 1). -/
def randomOffset (count limit : Nat) (r : ℚ) : Nat :=
  if limit < count then (⌊r * ((count : ℚ) - (limit : ℚ))⌋).toNat else 0

structure RandomResult where
  data : List Photo
  total : Nat
  limit : Nat
  offset : Nat
deriving DecidableEq, Repr

/-- The GET /my-photos/random route (photos.js lines 101-162): count the
matching photos (count query without the AircraftType join), return empty
when the count is zero, else fetch the inclusive range
[offset, offset + 4] of the filtered photos in store order (this data
query applies no ordering). -/
def randomPhotos (db : DB) (uid : Nat) (q : PhotoQuery) (r : ℚ) :
    RandomResult :=
  let count := (db.photos.filter (matchesCountFilters db uid q)).length
  if count == 0 then { data := [], total := 0, limit := 5, offset := 0 }
  else
    let off := randomOffset count 5 r
    let rows := db.photos.filter (matchesFilters db uid q)
    { data := (rows.drop off).take 5, total := count, limit := 5,
      offset := off }

/-! ### Helper lemmas -/

/-- find? on a list whose keys are nodup returns the unique member whose
key satisfies the predicate. -/
theorem find?_eq_of_nodup_key {α κ : Type} [DecidableEq κ] (key : α → κ)
    (pred : α → Bool) (l : List α) (a : α)
    (hnodup : (l.map key).Nodup) (ha : a ∈ l) (hpa : pred a = true)
    (hkey : ∀ b ∈ l, pred b = true → key b = key a) :
    l.find? pred = some a := by
  induction l with
  | nil => cases ha
  | cons x xs ih =>
    simp only [List.map_cons, List.nodup_cons, List.mem_map] at hnodup
    rw [List.find?_cons]
    by_cases hx : pred x = true
    · rw [hx]
      rcases List.mem_cons.mp ha with rfl | ha'
      · rfl
      · exact absurd ⟨a, ha', (hkey x (List.mem_cons_self x xs) hx).symm⟩
          hnodup.1
    · rw [Bool.of_not_eq_true hx]
      rcases List.mem_cons.mp ha with rfl | ha'
      · exact absurd hpa hx
      · exact ih hnodup.2 ha'
          (fun b hb => hkey b (List.mem_cons_of_mem _ hb))

/-- resolveAirportCreate touches only the Airport table. -/
theorem resolveAirportCreate_preserves (db : DB) (req : CreatePhotoReq) :
    (resolveAirportCreate db req).1.photos = db.photos ∧
    (resolveAirportCreate db req).1.registration_histories =
      db.registration_histories ∧
    (resolveAirportCreate db req).1.specific_aircraft =
      db.specific_aircraft ∧
    (resolveAirportCreate db req).1.next_uuid = db.next_uuid := by
  unfold resolveAirportCreate
  split
  · split
    · exact ⟨rfl, rfl, rfl, rfl⟩
    · dsimp only
      split <;> exact ⟨rfl, rfl, rfl, rfl⟩
  · exact ⟨rfl, rfl, rfl, rfl⟩

/-- Evaluation of resolveRHCreate on the create-new-pair path: no
explicit uuid_rh, an aircraft_type_id and a registration supplied. -/
theorem resolveRHCreate_new (db : DB) (req : CreatePhotoReq)
    (reg t : String)
    (hnorh : req.uuid_rh = none) (hat : req.aircraft_type_id = some t)
    (ht : ¬ t = "") (hreg : req.registration = some reg) :
    resolveRHCreate db req =
      ({ db with
         specific_aircraft := db.specific_aircraft ++
           [{ uuid := db.next_uuid, icao_type := t,
              manufactured_date := orNull req.manufactured_date }],
         registration_histories := db.registration_histories ++
           [{ uuid_rh := db.next_uuid + 1, uuid_sa := db.next_uuid,
              registration := upper reg, airline := req.airline_code,
              is_current := true }],
         next_uuid := db.next_uuid + 2 },
       Except.ok (db.next_uuid + 1)) := by
  have htruthy : truthy req.aircraft_type_id = true := by
    rw [hat]; simp [truthy, ht]
  unfold resolveRHCreate
  rw [hnorh, htruthy, hreg, hat]
  rfl

/-- Equal lists are sublists. -/
theorem sublist_of_eq {α : Type} {l1 l2 : List α} (h : l1 = l2) :
    l1.Sublist l2 := h ▸ List.Sublist.refl l1

/-- resolveRHCreate never touches the Airport table. -/
theorem resolveRHCreate_airports (db : DB) (req : CreatePhotoReq) :
    (resolveRHCreate db req).1.airports = db.airports := by
  unfold resolveRHCreate
  split
  · rfl
  · split
    · split <;> rfl
    · split
      · rfl
      · split <;> rfl

/-- resolveAirportUpdate touches only the Airport table. -/
theorem resolveAirportUpdate_preserves (db : DB) (req : UpdatePhotoReq) :
    (resolveAirportUpdate db req).1.photos = db.photos ∧
    (resolveAirportUpdate db req).1.registration_histories =
      db.registration_histories ∧
    (resolveAirportUpdate db req).1.specific_aircraft =
      db.specific_aircraft ∧
    (resolveAirportUpdate db req).1.next_uuid = db.next_uuid := by
  unfold resolveAirportUpdate
  split
  · split
    · exact ⟨rfl, rfl, rfl, rfl⟩
    · dsimp only
      split <;> exact ⟨rfl, rfl, rfl, rfl⟩
  · exact ⟨rfl, rfl, rfl, rfl⟩

/-- A Photo row with the given identity fields and empty metadata, used
to build concrete witness stores. -/
def mkPhoto (pid uid : Nat) (rh : Option Nat) : Photo :=
  { id := pid, user_id := uid, uuid_rh := rh, airport_code := none,
    image_url := none, taken_at := none, shutter_speed := none,
    iso := none, aperture := none, camera_model := none,
    focal_length := none }

/-- A RegistrationHistory row used to build concrete witness stores. -/
def mkRH (rhId saId : Nat) (reg : String) : RegistrationHistory :=
  { uuid_rh := rhId, uuid_sa := saId, registration := reg,
    airline := none, is_current := true }

/-- A SpecificAircraft row used to build concrete witness stores. -/
def mkSA (saId : Nat) (ty : String) : SpecificAircraft :=
  { uuid := saId, icao_type := ty, manufactured_date := none }

/-- The empty store, with the identifier counter at 10. -/
def emptyDB : DB :=
  { airports := [], aircraft_types := [], specific_aircraft := [],
    registration_histories := [], photos := [], next_uuid := 10 }

/-! ### Claims -/

/-- Claim C6: for every update-photo or delete-photo request where the
photo id does not exist or the photo is not owned by the requesting user
(both collapse to the fetch by id and owner finding nothing), the
operation fails with NotFoundOrForbidden, the state is unchanged, and the
response is the same in both situations (the error value does not depend
on the database at all). -/
theorem C6_not_found_or_forbidden (db dbB : DB) (uid pid : Nat)
    (req : UpdatePhotoReq)
    (h1 : db.photos.find? (fun p => p.id == pid && p.user_id == uid)
      = none)
    (h2 : dbB.photos.find? (fun p => p.id == pid && p.user_id == uid)
      = none) :
    deletePhoto db uid pid = (db, .error .notFoundOrForbidden) ∧
    updatePhoto db uid pid req = (db, .error .notFoundOrForbidden) ∧
    (deletePhoto db uid pid).2 = (deletePhoto dbB uid pid).2 ∧
    (updatePhoto db uid pid req).2 = (updatePhoto dbB uid pid req).2 := by
  unfold deletePhoto updatePhoto
  rw [h1, h2]
  exact ⟨rfl, rfl, rfl, rfl⟩

/-- The store used by the C6 witness: photo 7 exists but belongs to
user 2. -/
def dbOtherOwner : DB := { emptyDB with photos := [mkPhoto 7 2 none] }

/-- Witness for C6: a store where photo 7 does not exist at all, and one
where photo 7 exists but belongs to user 2; user 1 gets the same
NotFoundOrForbidden answer from both, with no mutation. -/
theorem C6_witness :
    emptyDB.photos.find? (fun p => p.id == 7 && p.user_id == 1) = none ∧
    dbOtherOwner.photos.find? (fun p => p.id == 7 && p.user_id == 1)
      = none ∧
    (deletePhoto emptyDB 1 7 = (emptyDB, .error .notFoundOrForbidden) ∧
     updatePhoto emptyDB 1 7 {} = (emptyDB, .error .notFoundOrForbidden) ∧
     (deletePhoto emptyDB 1 7).2 = (deletePhoto dbOtherOwner 1 7).2 ∧
     (updatePhoto emptyDB 1 7 {}).2
       = (updatePhoto dbOtherOwner 1 7 {}).2) :=
  ⟨by decide, by decide,
    C6_not_found_or_forbidden emptyDB dbOtherOwner 1 7 {}
      (by decide) (by decide)⟩

/-- The request used by the C7 counterexample and witness, with the
KJFK/KLAX ICAO code respectively. -/
def reqOtherKJFK : CreatePhotoReq :=
  { airport_code := some "other", airport_icao_code := some "kjfk",
    airport_name := some "John F Kennedy",
    airport_latitude := some "40.6", airport_longitude := some "-73.8",
    uuid_rh := some 3 }

def reqOtherKLAX : CreatePhotoReq :=
  { airport_code := some "other", airport_icao_code := some "klax",
    airport_name := some "Los Angeles", airport_latitude := some "33.9",
    airport_longitude := some "-118.4", uuid_rh := some 3 }

/-- A store holding only the Airport row KJFK. -/
def dbWithKJFK : DB := { emptyDB with airports :=
  [{ icao_code := "KJFK", name := "JFK", latitude := "40.6",
     longitude := "-73.8" }] }

/-- Claim C7, counterexample to the conflict-response part: with an
Airport row KJFK on file, a photo-create with airport_code "other" and
ICAO code "kjfk" fails on the duplicate, but the route returns status
500, not a conflict (409) response. -/
theorem C7_counterexample :
    (createPhoto dbWithKJFK 1 reqOtherKJFK).2
      = .error .airportInsertFailed ∧
    ErrResp.status .airportInsertFailed = 500 ∧
    ErrResp.status .airportInsertFailed ≠ 409 := by
  exact ⟨by rfl, rfl, by decide⟩

/-- Claim C7 (amended: the duplicate-ICAO failure is surfaced as a
generic server error with status 500, not as a conflict response): for
every photo-create with airport_code "other", missing airport fields
fail with the 400 validation error and leave the store unchanged; a
pre-existing Airport with the same uppercased ICAO code makes the
operation fail with the airport-insert failure at status 500; otherwise
exactly the new Airport row is appended and the photo, when created,
carries the uppercased ICAO code. -/
theorem C7_airport_other (db : DB) (uid : Nat) (req : CreatePhotoReq)
    (hother : req.airport_code = some "other") :
    (airportFieldsPresent req.airport_icao_code req.airport_name
        req.airport_latitude req.airport_longitude = false →
      createPhoto db uid req = (db, .error .airportFieldsRequired) ∧
      ErrResp.status .airportFieldsRequired = 400) ∧
    (airportFieldsPresent req.airport_icao_code req.airport_name
        req.airport_latitude req.airport_longitude = true →
      ((db.airports.any (fun a =>
          a.icao_code == upper (req.airport_icao_code.getD ""))) = true →
        createPhoto db uid req = (db, .error .airportInsertFailed) ∧
        ErrResp.status .airportInsertFailed = 500) ∧
      ((db.airports.any (fun a =>
          a.icao_code == upper (req.airport_icao_code.getD "")))
            = false →
        (createPhoto db uid req).1.airports = db.airports ++
          [newAirport req.airport_icao_code req.airport_name
            req.airport_latitude req.airport_longitude] ∧
        ∀ p, (createPhoto db uid req).2 = Except.ok p →
          p.airport_code
            = some (upper (req.airport_icao_code.getD "")))) := by
  refine ⟨fun hmiss => ?_,
    fun hpres => ⟨fun hdup => ?_, fun hnodup => ?_⟩⟩
  · constructor
    · unfold createPhoto resolveAirportCreate
      rw [hother]
      simp [hmiss]
    · rfl
  · constructor
    · unfold createPhoto resolveAirportCreate
      rw [hother]
      simp [hpres, hdup]
    · rfl
  · have hres : resolveAirportCreate db req =
        ({ db with airports := db.airports ++
            [newAirport req.airport_icao_code req.airport_name
              req.airport_latitude req.airport_longitude] },
         .ok (some (upper (req.airport_icao_code.getD "")))) := by
      unfold resolveAirportCreate
      rw [hother]
      simp [hpres, hnodup]
    set db1 : DB := { db with airports := db.airports ++
      [newAirport req.airport_icao_code req.airport_name
        req.airport_latitude req.airport_longitude] } with hdb1
    have hpres2 := resolveRHCreate_airports db1 req
    unfold createPhoto
    rw [hres]
    dsimp only
    rcases hrc : resolveRHCreate db1 req with ⟨db2, e⟩
    rw [hrc] at hpres2
    cases e with
    | error e =>
      dsimp only
      exact ⟨hpres2, fun p hp => by simp at hp⟩
    | ok rhId =>
      dsimp only
      refine ⟨hpres2, ?_⟩
      intro p hp
      simp only [Except.ok.injEq] at hp
      subst hp
      rfl

/-- Witness for C7: on the empty store with all airport fields present
and no duplicate, the KLAX row is appended and the created photo carries
airport code "KLAX". -/
theorem C7_witness :
    reqOtherKLAX.airport_code = some "other" ∧
    airportFieldsPresent reqOtherKLAX.airport_icao_code
      reqOtherKLAX.airport_name reqOtherKLAX.airport_latitude
      reqOtherKLAX.airport_longitude = true ∧
    (emptyDB.airports.any (fun a =>
      a.icao_code == upper (reqOtherKLAX.airport_icao_code.getD "")))
        = false ∧
    (createPhoto emptyDB 1 reqOtherKLAX).1.airports =
      emptyDB.airports ++
        [newAirport reqOtherKLAX.airport_icao_code
          reqOtherKLAX.airport_name reqOtherKLAX.airport_latitude
          reqOtherKLAX.airport_longitude] ∧
    (∀ p, (createPhoto emptyDB 1 reqOtherKLAX).2 = Except.ok p →
      p.airport_code
        = some (upper (reqOtherKLAX.airport_icao_code.getD ""))) :=
  ⟨rfl, by decide, by decide,
   (((C7_airport_other emptyDB 1 reqOtherKLAX rfl).2
      (by decide)).2 (by decide)).1,
   (((C7_airport_other emptyDB 1 reqOtherKLAX rfl).2
      (by decide)).2 (by decide)).2⟩

/-- Claim C3: a photo-create that supplies aircraft_type_id and no
explicit RegistrationHistory identifier appends exactly one new
SpecificAircraft row (with the given type and normalized manufacture
date) and exactly one new RegistrationHistory row (registration
uppercased, pointing at the new SpecificAircraft, with the given airline
and is_current true), and the created Photo references this fresh
RegistrationHistory, whose identifier differs from every identifier
already on file — no reuse even when the same registration text already
exists.  The airport step is assumed to succeed (its failures abort the
request before any aircraft row is touched). -/
theorem C3_fresh_pair (db : DB) (uid : Nat) (req : CreatePhotoReq)
    (reg t : String) (fa : Option String)
    (hnorh : req.uuid_rh = none)
    (hat : req.aircraft_type_id = some t) (ht : ¬ t = "")
    (hreg : req.registration = some reg)
    (hair : (resolveAirportCreate db req).2 = Except.ok fa)
    (hfresh : db.fresh) :
    ∃ p : Photo,
      (createPhoto db uid req).2 = Except.ok p ∧
      (createPhoto db uid req).1.specific_aircraft
        = db.specific_aircraft ++
          [{ uuid := db.next_uuid, icao_type := t,
             manufactured_date := orNull req.manufactured_date }] ∧
      (createPhoto db uid req).1.registration_histories
        = db.registration_histories ++
          [{ uuid_rh := db.next_uuid + 1, uuid_sa := db.next_uuid,
             registration := upper reg, airline := req.airline_code,
             is_current := true }] ∧
      p.uuid_rh = some (db.next_uuid + 1) ∧
      p ∈ (createPhoto db uid req).1.photos ∧
      (∀ r ∈ db.registration_histories, r.uuid_rh ≠ db.next_uuid + 1) ∧
      (∀ s ∈ db.specific_aircraft, s.uuid ≠ db.next_uuid) := by
  rcases hA : resolveAirportCreate db req with ⟨db1, e⟩
  have hPres := resolveAirportCreate_preserves db req
  rw [hA] at hPres hair
  obtain ⟨hps, hrs, hss, hnu⟩ := hPres
  simp only at hair hps hrs hss hnu
  subst hair
  unfold createPhoto
  rw [hA]
  dsimp only
  rw [resolveRHCreate_new db1 req reg t hnorh hat ht hreg]
  dsimp only
  refine ⟨_, rfl, ?_, ?_, ?_, ?_, ?_, ?_⟩
  · rw [hss, hnu]
  · rw [hrs, hnu]
  · simp only [hnu]
  · exact List.mem_append_right _ (List.mem_singleton.mpr rfl)
  · intro r hr
    have := hfresh.2.1 r hr
    omega
  · intro s hs
    have := hfresh.1 s hs
    omega

/-- The request of the C3 witness: new pairing of registration "n123ab"
with type A20N. -/
def reqC3 : CreatePhotoReq :=
  { registration := some "n123ab", aircraft_type_id := some "A20N",
    airline_code := some "DAL" }

/-- Witness for C3 on a store that already holds a RegistrationHistory
row with the same registration text "N123AB": a fresh pair is still
created and the photo references the fresh row. -/
def dbC3 : DB := { emptyDB with
  specific_aircraft := [mkSA 1 "A20N"],
  registration_histories := [mkRH 2 1 "N123AB"] }

theorem C3_witness :
    reqC3.uuid_rh = none ∧ reqC3.aircraft_type_id = some "A20N" ∧
    ¬ ("A20N" : String) = "" ∧ reqC3.registration = some "n123ab" ∧
    (resolveAirportCreate dbC3 reqC3).2 = Except.ok none ∧
    dbC3.fresh ∧
    (∃ p : Photo,
      (createPhoto dbC3 1 reqC3).2 = Except.ok p ∧
      (createPhoto dbC3 1 reqC3).1.specific_aircraft
        = dbC3.specific_aircraft ++
          [{ uuid := dbC3.next_uuid, icao_type := "A20N",
             manufactured_date := orNull reqC3.manufactured_date }] ∧
      (createPhoto dbC3 1 reqC3).1.registration_histories
        = dbC3.registration_histories ++
          [{ uuid_rh := dbC3.next_uuid + 1, uuid_sa := dbC3.next_uuid,
             registration := upper "n123ab",
             airline := reqC3.airline_code, is_current := true }] ∧
      p.uuid_rh = some (dbC3.next_uuid + 1) ∧
      p ∈ (createPhoto dbC3 1 reqC3).1.photos ∧
      (∀ r ∈ dbC3.registration_histories,
        r.uuid_rh ≠ dbC3.next_uuid + 1) ∧
      (∀ s ∈ dbC3.specific_aircraft, s.uuid ≠ dbC3.next_uuid)) :=
  ⟨rfl, rfl, by decide, rfl, rfl, by decide,
   C3_fresh_pair dbC3 1 reqC3 "n123ab" "A20N" none rfl rfl (by decide)
     rfl rfl (by decide)⟩

/-- The cleanup only ever deletes rows: the RegistrationHistory and
SpecificAircraft tables shrink to sublists and the Photo table is
untouched. -/
theorem cleanupSA_sublist (db2 : DB) (rhRow : Option RegistrationHistory) :
    (cleanupSA db2 rhRow).registration_histories =
      db2.registration_histories ∧
    (cleanupSA db2 rhRow).specific_aircraft.Sublist
      db2.specific_aircraft ∧
    (cleanupSA db2 rhRow).photos = db2.photos := by
  rcases rhRow with _ | r
  · exact ⟨rfl, List.Sublist.refl _, rfl⟩
  · unfold cleanupSA
    dsimp only
    by_cases h : ((db2.registration_histories.filter
        (fun x => x.uuid_sa == r.uuid_sa)).length == 0) = true
    · rw [if_pos h]
      exact ⟨rfl, List.filter_sublist _, rfl⟩
    · rw [if_neg h]
      exact ⟨rfl, List.Sublist.refl _, rfl⟩

theorem cleanupRH_sublist (db : DB) (rhId : Nat) :
    (cleanupRH db rhId).registration_histories.Sublist
      db.registration_histories ∧
    (cleanupRH db rhId).specific_aircraft.Sublist db.specific_aircraft ∧
    (cleanupRH db rhId).photos = db.photos := by
  unfold cleanupRH
  split
  · obtain ⟨h1, h2, h3⟩ := cleanupSA_sublist
      { db with registration_histories :=
          db.registration_histories.filter (fun r => !(r.uuid_rh == rhId)) }
      (db.registration_histories.find? (fun r => r.uuid_rh == rhId))
    exact ⟨h1 ▸ List.filter_sublist _, h2, h3⟩
  · exact ⟨List.Sublist.refl _, List.Sublist.refl _, rfl⟩

/-- Without an explicit uuid_rh and with a falsy aircraft_type_id,
resolveRHUpdate performs no insert. -/
theorem resolveRHUpdate_no_insert (db : DB) (old : Option Nat)
    (req : UpdatePhotoReq) (h1 : req.uuid_rh = none)
    (h2 : truthy req.aircraft_type_id = false) :
    (resolveRHUpdate db old req).1 = db := by
  by_cases hr : truthy req.registration = true
  · rcases hh : (db.registration_histories.filter (fun r =>
        r.registration == upper (req.registration.getD ""))).head?
      with _ | r0
    · simp [resolveRHUpdate, h1, h2, hr, hh]
    · simp [resolveRHUpdate, h1, h2, hr, hh]
  · simp [resolveRHUpdate, h1, hr]

/-- Without an explicit uuid_rh, with a falsy aircraft_type_id and with
no matching RegistrationHistory row, resolveRHUpdate keeps the old
reference and performs no insert. -/
theorem resolveRHUpdate_no_match (db : DB) (old : Option Nat)
    (req : UpdatePhotoReq) (reg : String) (h1 : req.uuid_rh = none)
    (h2 : truthy req.aircraft_type_id = false)
    (h3 : req.registration = some reg)
    (h4 : db.registration_histories.filter
      (fun r => r.registration == upper reg) = []) :
    resolveRHUpdate db old req = (db, old) := by
  have hh : (db.registration_histories.filter (fun r =>
      r.registration == upper (req.registration.getD ""))).head? = none := by
    rw [h3]
    simp only [Option.getD_some]
    rw [h4]
    rfl
  by_cases hr : truthy req.registration = true
  · simp [resolveRHUpdate, h1, h2, hr, hh]
  · simp [resolveRHUpdate, h1, hr]

/-- Without an explicit uuid_rh and with a falsy aircraft_type_id,
resolveRHCreate performs no insert. -/
theorem resolveRHCreate_lookup (db : DB) (req : CreatePhotoReq)
    (h1 : req.uuid_rh = none)
    (h2 : truthy req.aircraft_type_id = false) :
    (resolveRHCreate db req).1 = db := by
  rcases hr : req.registration with _ | reg
  · simp [resolveRHCreate, h1, h2, hr]
  · rcases hh : (db.registration_histories.filter (fun r =>
        r.registration == upper reg)).head? with _ | r0
    · simp [resolveRHCreate, h1, h2, hr, hh]
    · simp [resolveRHCreate, h1, h2, hr, hh]

/-- Without an explicit uuid_rh, with a falsy aircraft_type_id and with
no matching RegistrationHistory row, resolveRHCreate fails with the 404
registration-not-found error. -/
theorem resolveRHCreate_not_found (db : DB) (req : CreatePhotoReq)
    (reg : String) (h1 : req.uuid_rh = none)
    (h2 : truthy req.aircraft_type_id = false)
    (h3 : req.registration = some reg)
    (h4 : db.registration_histories.filter
      (fun r => r.registration == upper reg) = []) :
    resolveRHCreate db req = (db, .error .regNotFound) := by
  have hh : (db.registration_histories.filter (fun r =>
      r.registration == upper reg)).head? = none := by
    rw [h4]; rfl
  simp [resolveRHCreate, h1, h2, h3, hh]

/-- Without an explicit uuid_rh and a falsy aircraft_type_id, when the
filter on the uppercased registration has a first row, resolveRHCreate
returns that row's identifier. -/
theorem resolveRHCreate_found (db : DB) (req : CreatePhotoReq)
    (reg : String) (r0 : RegistrationHistory) (h1 : req.uuid_rh = none)
    (h2 : truthy req.aircraft_type_id = false)
    (h3 : req.registration = some reg)
    (h4 : (db.registration_histories.filter
      (fun r => r.registration == upper reg)).head? = some r0) :
    resolveRHCreate db req = (db, .ok r0.uuid_rh) := by
  simp [resolveRHCreate, h1, h2, h3, h4]

/-- The photo fetch by id and owner returns the unique photo with that
id when the photo ids are nodup and it belongs to the user. -/
theorem find?_photo (db : DB) (photo : Photo) (pid uid : Nat)
    (hnodup : (db.photos.map Photo.id).Nodup) (hmem : photo ∈ db.photos)
    (hid : photo.id = pid) (huid : photo.user_id = uid) :
    db.photos.find? (fun p => p.id == pid && p.user_id == uid)
      = some photo := by
  apply find?_eq_of_nodup_key Photo.id _ _ _ hnodup hmem
  · simp [hid, huid]
  · intro b hb hpb
    simp only [Bool.and_eq_true, beq_iff_eq] at hpb
    rw [hpb.1, hid]

/-- The RegistrationHistory fetch by identifier returns the unique row
with that identifier when the identifiers are nodup. -/
theorem find?_rh (db : DB) (rh : RegistrationHistory) (rhId : Nat)
    (hnodup : (db.registration_histories.map
      RegistrationHistory.uuid_rh).Nodup)
    (hmem : rh ∈ db.registration_histories) (hid : rh.uuid_rh = rhId) :
    db.registration_histories.find? (fun r => r.uuid_rh == rhId)
      = some rh := by
  apply find?_eq_of_nodup_key RegistrationHistory.uuid_rh _ _ _
    hnodup hmem
  · simp [hid]
  · intro b hb hpb
    simp only [beq_iff_eq] at hpb
    rw [hpb, hid]

/-- Destructured form of resolveAirportCreate_preserves. -/
theorem resolveAirportCreate_preserved (db db1 : DB)
    (req : CreatePhotoReq) (e : Except ErrResp (Option String))
    (h : resolveAirportCreate db req = (db1, e)) :
    db1.photos = db.photos ∧
    db1.registration_histories = db.registration_histories ∧
    db1.specific_aircraft = db.specific_aircraft ∧
    db1.next_uuid = db.next_uuid := by
  have h2 := resolveAirportCreate_preserves db req
  rw [h] at h2
  exact h2

/-- Destructured form of resolveAirportUpdate_preserves. -/
theorem resolveAirportUpdate_preserved (db db1 : DB)
    (req : UpdatePhotoReq) (e : Except ErrResp (Option String))
    (h : resolveAirportUpdate db req = (db1, e)) :
    db1.photos = db.photos ∧
    db1.registration_histories = db.registration_histories ∧
    db1.specific_aircraft = db.specific_aircraft ∧
    db1.next_uuid = db.next_uuid := by
  have h2 := resolveAirportUpdate_preserves db req
  rw [h] at h2
  exact h2

/-- Store for the C4 examples: photo 7 of user 1 references
RegistrationHistory 2 ("N555XY") on SpecificAircraft 1. -/
def dbC4 : DB := { emptyDB with
  photos := [mkPhoto 7 1 (some 2)],
  specific_aircraft := [mkSA 1 "B738"],
  registration_histories := [mkRH 2 1 "N555XY"] }

/-- Update request supplying only an unmatched registration text. -/
def reqC4u : UpdatePhotoReq := { registration := some "zz999" }

/-- Create request supplying only an unmatched registration text. -/
def reqC4c : CreatePhotoReq := { registration := some "zz999" }

/-- Claim C4, counterexample to the update half: on a store whose only
RegistrationHistory row is "N555XY", updating photo 7 with only the
unmatched registration text "zz999" succeeds with 200 instead of failing
with RegistrationNotFound (the route silently keeps the old
reference). -/
theorem C4_counterexample :
    reqC4u.registration = some "zz999" ∧
    reqC4u.aircraft_type_id = none ∧
    reqC4u.uuid_rh = none ∧
    dbC4.registration_histories.filter
      (fun r => r.registration == upper "zz999") = [] ∧
    (updatePhoto dbC4 1 7 reqC4u).2
      = Except.ok "Photo updated successfully" ∧
    (updatePhoto dbC4 1 7 reqC4u).2
      ≠ Except.error ErrResp.regNotFound := by
  exact ⟨rfl, rfl, rfl, by decide, by decide, by decide⟩

/-- Claim C4 (amended: the create path fails with RegistrationNotFound
when nothing matches, while the update path silently keeps the photo's
existing reference and succeeds; neither path ever creates a
SpecificAircraft or RegistrationHistory row): for requests that supply
only a registration text (no aircraft_type_id, no explicit uuid_rh). -/
theorem C4_registration_only (db : DB) (uid pid : Nat)
    (cre : CreatePhotoReq) (upd : UpdatePhotoReq) (reg : String)
    (hc1 : cre.uuid_rh = none)
    (hc2 : truthy cre.aircraft_type_id = false)
    (hc3 : cre.registration = some reg)
    (hu1 : upd.uuid_rh = none)
    (hu2 : truthy upd.aircraft_type_id = false)
    (hu3 : upd.registration = some reg) :
    ((createPhoto db uid cre).1.specific_aircraft
       = db.specific_aircraft ∧
     (createPhoto db uid cre).1.registration_histories
       = db.registration_histories) ∧
    (∀ fa, (resolveAirportCreate db cre).2 = Except.ok fa →
      db.registration_histories.filter
        (fun r => r.registration == upper reg) = [] →
      (createPhoto db uid cre).2 = Except.error ErrResp.regNotFound) ∧
    ((updatePhoto db uid pid upd).1.specific_aircraft.Sublist
       db.specific_aircraft ∧
     (updatePhoto db uid pid upd).1.registration_histories.Sublist
       db.registration_histories) ∧
    (∀ photo, photo ∈ db.photos → photo.id = pid →
      photo.user_id = uid → (db.photos.map Photo.id).Nodup →
      db.registration_histories.filter
        (fun r => r.registration == upper reg) = [] →
      ∀ fa, (resolveAirportUpdate db upd).2 = Except.ok fa →
        (updatePhoto db uid pid upd).2
          = Except.ok "Photo updated successfully" ∧
        (updatePhoto db uid pid upd).1.registration_histories
          = db.registration_histories ∧
        (updatePhoto db uid pid upd).1.specific_aircraft
          = db.specific_aircraft ∧
        ∀ p ∈ (updatePhoto db uid pid upd).1.photos, p.id = pid →
          p.uuid_rh = photo.uuid_rh) := by
  refine ⟨?_, ?_, ?_, ?_⟩
  · rcases hA : resolveAirportCreate db cre with ⟨db1, e⟩
    obtain ⟨hcp, hcr, hcs, hcu⟩ :=
      resolveAirportCreate_preserved db db1 cre e hA
    unfold createPhoto
    rw [hA]
    cases e with
    | error e => exact ⟨hcs, hcr⟩
    | ok fa =>
      dsimp only
      rcases hRC : resolveRHCreate db1 cre with ⟨db2, e2⟩
      have hd2 : db2 = db1 := by
        have h0 := resolveRHCreate_lookup db1 cre hc1 hc2
        rw [hRC] at h0
        exact h0
      subst hd2
      cases e2 with
      | error e2 => exact ⟨hcs, hcr⟩
      | ok rhId => exact ⟨hcs, hcr⟩
  · intro fa hair hmatch
    rcases hA : resolveAirportCreate db cre with ⟨db1, e⟩
    rw [hA] at hair
    obtain ⟨hcp, hcr, hcs, hcu⟩ :=
      resolveAirportCreate_preserved db db1 cre e hA
    have he : e = Except.ok fa := hair
    subst he
    unfold createPhoto
    rw [hA]
    dsimp only
    rw [resolveRHCreate_not_found db1 cre reg hc1 hc2 hc3
      (by rw [hcr, hmatch])]
  · unfold updatePhoto
    rcases hf : db.photos.find?
        (fun p => p.id == pid && p.user_id == uid) with _ | photo0
    · rw [hf]
      exact ⟨List.Sublist.refl _, List.Sublist.refl _⟩
    · rw [hf]
      dsimp only
      rcases hA : resolveAirportUpdate db upd with ⟨db1, e⟩
      obtain ⟨hap, har, has, hau⟩ :=
        resolveAirportUpdate_preserved db db1 upd e hA
      try rw [hA]
      cases e with
      | error e => exact ⟨sublist_of_eq has, sublist_of_eq har⟩
      | ok fa =>
        dsimp only
        rcases hR : resolveRHUpdate db1 photo0.uuid_rh upd
          with ⟨db2, finalRH⟩
        have hd2 : db2 = db1 := by
          have h0 := resolveRHUpdate_no_insert db1 photo0.uuid_rh upd
            hu1 hu2
          rw [hR] at h0
          exact h0
        subst hd2
        try rw [hR]
        try dsimp only
        by_cases hfin : finalRH ≠ photo0.uuid_rh
        · rw [if_pos hfin]
          rcases ho : photo0.uuid_rh with _ | o
          · try rw [ho]
            exact ⟨sublist_of_eq has, sublist_of_eq har⟩
          · try rw [ho]
            exact ⟨(cleanupRH_sublist _ o).2.1.trans (sublist_of_eq has),
              (cleanupRH_sublist _ o).1.trans (sublist_of_eq har)⟩
        · rw [if_neg hfin]
          exact ⟨sublist_of_eq has, sublist_of_eq har⟩
  · intro photo hmem hpid hpuid hnodup hmatch fa hair
    have hf : db.photos.find? (fun p => p.id == pid && p.user_id == uid)
        = some photo := find?_photo db photo pid uid hnodup hmem hpid hpuid
    rcases hA : resolveAirportUpdate db upd with ⟨db1, e⟩
    rw [hA] at hair
    obtain ⟨hap, har, has, hau⟩ :=
      resolveAirportUpdate_preserved db db1 upd e hA
    have he : e = Except.ok fa := hair
    subst he
    have hR : resolveRHUpdate db1 photo.uuid_rh upd
        = (db1, photo.uuid_rh) :=
      resolveRHUpdate_no_match db1 photo.uuid_rh upd reg hu1 hu2 hu3
        (by rw [har, hmatch])
    unfold updatePhoto
    rw [hf]
    dsimp only
    rw [hA]
    dsimp only
    rw [hR]
    dsimp only
    rw [if_neg (by simp)]
    refine ⟨rfl, har, has, ?_⟩
    intro p hp hpid2
    rw [hap] at hp
    simp only [List.mem_map] at hp
    obtain ⟨p0, hp0, hfp0⟩ := hp
    by_cases hcond : (p0.id == pid && p0.user_id == uid) = true
    · rw [if_pos hcond] at hfp0
      have hu : p.uuid_rh = p0.uuid_rh := by
        rw [← hfp0]
        unfold applyUpdates
        simp
      have hpi : p0.id = pid := by
        simp only [Bool.and_eq_true, beq_iff_eq] at hcond
        exact hcond.1
      have hpp : p0 = photo :=
        List.inj_on_of_nodup_map hnodup hp0 hmem (by rw [hpi, hpid])
      rw [hu, hpp]
    · rw [if_neg hcond] at hfp0
      have hpp : p0 = photo :=
        List.inj_on_of_nodup_map hnodup hp0 hmem
          (by rw [hfp0, hpid2, hpid])
      rw [← hfp0, hpp]

/-- Witness for C4: on `dbC4` (one photo, one RegistrationHistory row
"N555XY") with requests that supply only the unmatched registration
"zz999", the create path fails with RegistrationNotFound and inserts
nothing, and the update path succeeds keeping the reference. -/
theorem C4_witness :
    reqC4c.uuid_rh = none ∧ truthy reqC4c.aircraft_type_id = false ∧
    reqC4c.registration = some "zz999" ∧
    reqC4u.uuid_rh = none ∧ truthy reqC4u.aircraft_type_id = false ∧
    reqC4u.registration = some "zz999" ∧
    (((createPhoto dbC4 1 reqC4c).1.specific_aircraft
        = dbC4.specific_aircraft ∧
      (createPhoto dbC4 1 reqC4c).1.registration_histories
        = dbC4.registration_histories) ∧
     (∀ fa, (resolveAirportCreate dbC4 reqC4c).2 = Except.ok fa →
       dbC4.registration_histories.filter
         (fun r => r.registration == upper "zz999") = [] →
       (createPhoto dbC4 1 reqC4c).2
         = Except.error ErrResp.regNotFound) ∧
     ((updatePhoto dbC4 1 7 reqC4u).1.specific_aircraft.Sublist
        dbC4.specific_aircraft ∧
      (updatePhoto dbC4 1 7 reqC4u).1.registration_histories.Sublist
        dbC4.registration_histories) ∧
     (∀ photo, photo ∈ dbC4.photos → photo.id = 7 → photo.user_id = 1 →
       (dbC4.photos.map Photo.id).Nodup →
       dbC4.registration_histories.filter
         (fun r => r.registration == upper "zz999") = [] →
       ∀ fa, (resolveAirportUpdate dbC4 reqC4u).2 = Except.ok fa →
         (updatePhoto dbC4 1 7 reqC4u).2
           = Except.ok "Photo updated successfully" ∧
         (updatePhoto dbC4 1 7 reqC4u).1.registration_histories
           = dbC4.registration_histories ∧
         (updatePhoto dbC4 1 7 reqC4u).1.specific_aircraft
           = dbC4.specific_aircraft ∧
         ∀ p ∈ (updatePhoto dbC4 1 7 reqC4u).1.photos, p.id = 7 →
           p.uuid_rh = photo.uuid_rh)) :=
  ⟨rfl, rfl, rfl, rfl, rfl, rfl,
    C4_registration_only dbC4 1 7 reqC4c reqC4u "zz999"
      rfl rfl rfl rfl rfl rfl⟩

/-- Modelled from the spec for comparison with the code's lookup: the
"most recent RegistrationHistory row whose registration text matches",
read as the latest-inserted matching row (rows are appended in insertion
order; the route selects no timestamp to order by). -/
def mostRecentMatch (db : DB) (reg : String) :
    Option RegistrationHistory :=
  (db.registration_histories.filter
    (fun r => r.registration == upper reg)).getLast?

/-- Store for the C5 examples: two RegistrationHistory rows with the same
registration text "N12345"; row 2 was inserted before row 4, so row 4 is
the most recent. -/
def dbC5 : DB := { emptyDB with
  specific_aircraft := [mkSA 1 "B738", mkSA 3 "A20N"],
  registration_histories := [mkRH 2 1 "N12345", mkRH 4 3 "N12345"] }

/-- Create request resolving registration "n12345" by text. -/
def reqC5 : CreatePhotoReq :=
  { registration := some "n12345", image_url := "u" }

/-- Claim C5, counterexample: with two matching rows (uuid_rh 2 inserted
before uuid_rh 4), the create-photo lookup returns row 2 — the first row
in store order — while the most recent matching row is row 4: the lookup
is `.limit(1)` with no ordering, so it does not return the most recent
match. -/
theorem C5_counterexample :
    mostRecentMatch dbC5 "n12345" = some (mkRH 4 3 "N12345") ∧
    (createPhoto dbC5 1 reqC5).2 = Except.ok
      { id := 10, user_id := 1, uuid_rh := some 2, airport_code := none,
        image_url := some "u", taken_at := none, shutter_speed := none,
        iso := none, aperture := none, camera_model := none,
        focal_length := none } ∧
    (2 : Nat) ≠ 4 := by
  exact ⟨by decide, by decide, by decide⟩

/-- Claim C5 (amended: when more than one RegistrationHistory row matches
the uppercased registration text, the operation returns the identifier of
the FIRST matching row in the store's order — the lookup is limit(1) with
no ordering — not necessarily the most recent one). -/
theorem C5_first_match (db : DB) (uid : Nat) (req : CreatePhotoReq)
    (reg : String) (r0 : RegistrationHistory) (fa : Option String)
    (h1 : req.uuid_rh = none)
    (h2 : truthy req.aircraft_type_id = false)
    (h3 : req.registration = some reg)
    (hair : (resolveAirportCreate db req).2 = Except.ok fa)
    (hhead : (db.registration_histories.filter
      (fun r => r.registration == upper reg)).head? = some r0) :
    ∃ p : Photo, (createPhoto db uid req).2 = Except.ok p ∧
      p.uuid_rh = some r0.uuid_rh := by
  rcases hA : resolveAirportCreate db req with ⟨db1, e⟩
  rw [hA] at hair
  obtain ⟨hcp, hcr, hcs, hcu⟩ :=
    resolveAirportCreate_preserved db db1 req e hA
  have he : e = Except.ok fa := hair
  subst he
  have hRC : resolveRHCreate db1 req = (db1, .ok r0.uuid_rh) :=
    resolveRHCreate_found db1 req reg r0 h1 h2 h3
      (by rw [hcr]; exact hhead)
  unfold createPhoto
  rw [hA]
  dsimp only
  rw [hRC]
  exact ⟨_, rfl, rfl⟩

/-- Witness for C5: on `dbC5` the lookup's first match is row 2 and the
created photo references row 2. -/
theorem C5_witness :
    reqC5.uuid_rh = none ∧ truthy reqC5.aircraft_type_id = false ∧
    reqC5.registration = some "n12345" ∧
    (resolveAirportCreate dbC5 reqC5).2 = Except.ok none ∧
    (dbC5.registration_histories.filter
      (fun r => r.registration == upper "n12345")).head?
        = some (mkRH 2 1 "N12345") ∧
    (∃ p : Photo, (createPhoto dbC5 1 reqC5).2 = Except.ok p ∧
      p.uuid_rh = some (mkRH 2 1 "N12345").uuid_rh) :=
  ⟨rfl, rfl, rfl, rfl, by decide,
   C5_first_match dbC5 1 reqC5 "n12345" (mkRH 2 1 "N12345") none
     rfl rfl rfl rfl (by decide)⟩

/-- The random offset stays strictly below count - limit: the value
count - limit itself is never drawn. -/
theorem randomOffset_lt (count limit : Nat) (r : ℚ) (h0 : 0 ≤ r)
    (h1 : r < 1) (hc : limit < count) :
    randomOffset count limit r < count - limit := by
  unfold randomOffset
  rw [if_pos hc]
  have hpos : (0:ℚ) < (count:ℚ) - (limit:ℚ) := by
    have hlt : (limit:ℚ) < (count:ℚ) := by exact_mod_cast hc
    linarith
  have hx0 : 0 ≤ r * ((count:ℚ) - (limit:ℚ)) :=
    mul_nonneg h0 (le_of_lt hpos)
  have hxlt : r * ((count:ℚ) - (limit:ℚ)) < (count:ℚ) - (limit:ℚ) := by
    calc r * ((count:ℚ) - (limit:ℚ))
        < 1 * ((count:ℚ) - (limit:ℚ)) :=
          mul_lt_mul_of_pos_right h1 hpos
      _ = (count:ℚ) - (limit:ℚ) := one_mul _
  have hfl : ⌊r * ((count:ℚ) - (limit:ℚ))⌋ < ((count - limit : Nat) : ℤ) := by
    apply Int.floor_lt.mpr
    rw [Int.cast_natCast, Nat.cast_sub (le_of_lt hc)]
    exact hxlt
  have hge : 0 ≤ ⌊r * ((count:ℚ) - (limit:ℚ))⌋ := Int.floor_nonneg.mpr hx0
  omega

/-- Every offset in [0, count - limit) is attainable, by
r = k / (count - limit). -/
theorem randomOffset_attains (count limit k : Nat) (hc : limit < count)
    (hk : k < count - limit) :
    ∃ r : ℚ, 0 ≤ r ∧ r < 1 ∧ randomOffset count limit r = k := by
  have hpos : (0:ℚ) < (count:ℚ) - (limit:ℚ) := by
    have hlt : (limit:ℚ) < (count:ℚ) := by exact_mod_cast hc
    linarith
  refine ⟨(k:ℚ) / ((count:ℚ) - (limit:ℚ)), by positivity, ?_, ?_⟩
  · rw [div_lt_one hpos]
    have hkq : (k:ℚ) < ((count - limit : Nat):ℚ) := by exact_mod_cast hk
    rwa [Nat.cast_sub (le_of_lt hc)] at hkq
  · unfold randomOffset
    rw [if_pos hc, div_mul_cancel₀ _ (ne_of_gt hpos), Int.floor_natCast]
    exact Int.toNat_natCast k

/-- The preimage of each offset k is exactly the interval of r with
k ≤ r * (count - limit) < k + 1: all preimages have equal width
1 / (count - limit), which is what makes the draw uniform over the
attainable offsets. -/
theorem randomOffset_eq_iff (count limit k : Nat) (r : ℚ) (h0 : 0 ≤ r)
    (hc : limit < count) :
    randomOffset count limit r = k ↔
      ((k:ℚ) ≤ r * ((count:ℚ) - (limit:ℚ)) ∧
       r * ((count:ℚ) - (limit:ℚ)) < (k:ℚ) + 1) := by
  unfold randomOffset
  rw [if_pos hc]
  have hpos : (0:ℚ) < (count:ℚ) - (limit:ℚ) := by
    have hlt : (limit:ℚ) < (count:ℚ) := by exact_mod_cast hc
    linarith
  have hx0 : 0 ≤ r * ((count:ℚ) - (limit:ℚ)) :=
    mul_nonneg h0 (le_of_lt hpos)
  have hfl0 : 0 ≤ ⌊r * ((count:ℚ) - (limit:ℚ))⌋ := Int.floor_nonneg.mpr hx0
  constructor
  · intro h
    have hz : ⌊r * ((count:ℚ) - (limit:ℚ))⌋ = (k:ℤ) := by omega
    have := Int.floor_eq_iff.mp hz
    constructor
    · exact_mod_cast this.1
    · have h2 := this.2
      push_cast at h2
      exact h2
  · rintro ⟨ha, hb⟩
    have hz : ⌊r * ((count:ℚ) - (limit:ℚ))⌋ = (k:ℤ) := by
      apply Int.floor_eq_iff.mpr
      constructor
      · exact_mod_cast ha
      · push_cast
        exact hb
    omega

/-- Claim C8, counterexample to the closed-interval part: with 6 matching
photos and the fixed limit 5, the claimed interval [0, 6-5] contains the
offset 1, but no value of Math.random() in [0,1) ever produces offset 1 —
Math.floor(r * (count - limit)) is at most count - limit - 1. -/
theorem C8_counterexample :
    ¬ ∃ r : ℚ, 0 ≤ r ∧ r < 1 ∧ randomOffset 6 5 r = 6 - 5 := by
  rintro ⟨r, h0, h1, hoff⟩
  have hlt := randomOffset_lt 6 5 r h0 h1 (by norm_num)
  omega

/-- Claim C8 (amended: the starting offset is drawn uniformly from the
half-open interval [0, total_count - limit), i.e. its largest attainable
value is total_count - limit - 1, not total_count - limit): when the
count exceeds the fixed limit 5, the returned offset is the floor draw
and stays below count - 5, every value below count - 5 is attainable,
and the preimages of the attainable offsets are intervals of equal
width (uniformity); when the count does not exceed 5 the offset is 0;
in all cases at most one page of 5 photos starting at that offset is
fetched. -/
theorem C8_random_offset (db : DB) (uid : Nat) (q : PhotoQuery) (r : ℚ)
    (h0 : 0 ≤ r) (h1 : r < 1) :
    ((randomPhotos db uid q r).data.length ≤ 5) ∧
    ((db.photos.filter (matchesCountFilters db uid q)).length ≤ 5 →
      (randomPhotos db uid q r).offset = 0) ∧
    (5 < (db.photos.filter (matchesCountFilters db uid q)).length →
      (randomPhotos db uid q r).offset =
        randomOffset
          (db.photos.filter (matchesCountFilters db uid q)).length 5 r ∧
      (randomPhotos db uid q r).offset <
        (db.photos.filter (matchesCountFilters db uid q)).length - 5 ∧
      (randomPhotos db uid q r).data =
        ((db.photos.filter (matchesFilters db uid q)).drop
          (randomPhotos db uid q r).offset).take 5) ∧
    (∀ k : Nat,
      5 < (db.photos.filter (matchesCountFilters db uid q)).length →
      k < (db.photos.filter (matchesCountFilters db uid q)).length - 5 →
      ∃ r2 : ℚ, 0 ≤ r2 ∧ r2 < 1 ∧
        randomOffset
          (db.photos.filter (matchesCountFilters db uid q)).length 5 r2
          = k) ∧
    (∀ k : Nat,
      5 < (db.photos.filter (matchesCountFilters db uid q)).length →
      (randomOffset
          (db.photos.filter (matchesCountFilters db uid q)).length 5 r
            = k ↔
        ((k:ℚ) ≤ r *
          (((db.photos.filter (matchesCountFilters db uid q)).length :ℚ)
            - 5) ∧
         r * (((db.photos.filter
            (matchesCountFilters db uid q)).length :ℚ) - 5)
           < (k:ℚ) + 1))) := by
  refine ⟨?_, ?_, ?_,
    fun k hc hk => randomOffset_attains _ 5 k hc hk,
    fun k hc => by
      have := randomOffset_eq_iff
        (db.photos.filter (matchesCountFilters db uid q)).length 5 k r
        h0 hc
      simpa using this⟩
  · unfold randomPhotos
    by_cases hc : ((db.photos.filter
        (matchesCountFilters db uid q)).length == 0) = true
    · rw [if_pos hc]
      simp
    · rw [if_neg hc]
      exact List.length_take_le _ _
  · intro hle
    unfold randomPhotos
    by_cases hc : ((db.photos.filter
        (matchesCountFilters db uid q)).length == 0) = true
    · rw [if_pos hc]
    · rw [if_neg hc]
      show randomOffset _ 5 r = 0
      unfold randomOffset
      rw [if_neg (by omega)]
  · intro hgt
    unfold randomPhotos
    rw [if_neg (by simp only [beq_iff_eq]; omega)]
    exact ⟨rfl, randomOffset_lt _ 5 r h0 h1 hgt, rfl⟩

/-- Witness for C8: with 7 matching photos in the store and r = 1/2 the
offset is 1 = Math.floor(0.5 * 2), below 7 - 5 = 2, and one page of 5
photos starting at offset 1 is fetched. -/
def dbC8 : DB := { emptyDB with
  aircraft_types :=
    [{ icao_type := "B738", manufacturer := "Boeing", type := "737",
       variant := "800" }],
  specific_aircraft := [mkSA 1 "B738"],
  registration_histories := [mkRH 2 1 "N100"],
  photos := [mkPhoto 11 1 (some 2), mkPhoto 12 1 (some 2),
    mkPhoto 13 1 (some 2), mkPhoto 14 1 (some 2), mkPhoto 15 1 (some 2),
    mkPhoto 16 1 (some 2), mkPhoto 17 1 (some 2)],
  next_uuid := 20 }

theorem C8_witness :
    (0 ≤ (1/2 : ℚ)) ∧ ((1/2 : ℚ) < 1) ∧
    ((randomPhotos dbC8 1 {} (1/2)).data.length ≤ 5) ∧
    (5 < (dbC8.photos.filter (matchesCountFilters dbC8 1 {})).length) ∧
    ((randomPhotos dbC8 1 {} (1/2)).offset =
      randomOffset
        (dbC8.photos.filter (matchesCountFilters dbC8 1 {})).length 5
        (1/2)) ∧
    ((randomPhotos dbC8 1 {} (1/2)).offset <
      (dbC8.photos.filter (matchesCountFilters dbC8 1 {})).length - 5) ∧
    ((randomPhotos dbC8 1 {} (1/2)).offset = 1) := by
  have h := C8_random_offset dbC8 1 {} (1/2) (by norm_num) (by norm_num)
  have hgt : 5 <
      (dbC8.photos.filter (matchesCountFilters dbC8 1 {})).length := by
    decide
  have hcount :
      (dbC8.photos.filter (matchesCountFilters dbC8 1 {})).length = 7 := by
    decide
  have hofq : randomOffset 7 5 (1/2) = 1 := by
    rw [randomOffset_eq_iff 7 5 1 (1/2) (by norm_num) (by norm_num)]
    norm_num
  obtain ⟨hlen, _, hm, _, _⟩ := h
  obtain ⟨ho1, ho2, _⟩ := hm hgt
  exact ⟨by norm_num, by norm_num, hlen, hgt, ho1, ho2,
    by rw [ho1, hcount]; exact hofq⟩

/-- Membership in an insertion step of the sort. -/
theorem mem_insertDesc {x y : Photo} {l : List Photo} :
    y ∈ insertDesc x l ↔ y = x ∨ y ∈ l := by
  induction l with
  | nil => simp [insertDesc]
  | cons z zs ih =>
    unfold insertDesc
    by_cases h : takenBefore x z = true
    · rw [if_pos h]
      simp
    · rw [if_neg h]
      simp only [List.mem_cons, ih]
      tauto

/-- The sort keeps exactly the members of its input. -/
theorem mem_sortByTakenDesc {y : Photo} {l : List Photo} :
    y ∈ sortByTakenDesc l ↔ y ∈ l := by
  induction l with
  | nil => simp [sortByTakenDesc]
  | cons z zs ih =>
    unfold sortByTakenDesc
    rw [mem_insertDesc]
    simp [ih]

/-- The non-user filters read only the RegistrationHistory,
SpecificAircraft and AircraftType tables. -/
theorem restFilters_eq (db db2 : DB) (q : PhotoQuery) (p : Photo)
    (hrh : db2.registration_histories = db.registration_histories)
    (hsa : db2.specific_aircraft = db.specific_aircraft)
    (hat : db2.aircraft_types = db.aircraft_types) :
    restFilters db2 q p = restFilters db q p := by
  unfold restFilters joinRH joinSA joinAT
  rw [hrh, hsa, hat]

/-- The count query's non-user filters read only the RegistrationHistory
and SpecificAircraft tables. -/
theorem restCountFilters_eq (db db2 : DB) (q : PhotoQuery) (p : Photo)
    (hrh : db2.registration_histories = db.registration_histories)
    (hsa : db2.specific_aircraft = db.specific_aircraft) :
    restCountFilters db2 q p = restCountFilters db q p := by
  unfold restCountFilters joinRH joinSA
  rw [hrh, hsa]

/-- A listing's filter factors through the filter on the user's own
photos. -/
theorem filter_matches_factor (d : DB) (uid : Nat) (q : PhotoQuery) :
    d.photos.filter (matchesFilters d uid q)
      = (d.photos.filter (fun p => p.user_id == uid)).filter
          (restFilters d q) := by
  rw [List.filter_filter]
  apply List.filter_congr
  intro p hp
  exact Bool.and_comm (p.user_id == uid) (restFilters d q p)

/-- The count query's filter factors the same way. -/
theorem filter_count_factor (d : DB) (uid : Nat) (q : PhotoQuery) :
    d.photos.filter (matchesCountFilters d uid q)
      = (d.photos.filter (fun p => p.user_id == uid)).filter
          (restCountFilters d q) := by
  rw [List.filter_filter]
  apply List.filter_congr
  intro p hp
  exact Bool.and_comm (p.user_id == uid) (restCountFilters d q p)

/-- Claim C9: every photo returned by the my-photos listing and by the
random-sample endpoint belongs to the requesting user, and the results
are unchanged under any change to the photos of other users (two-run
noninterference: two stores agreeing on the user's own photo rows and on
the aircraft reference tables produce identical responses). -/
theorem C9_user_isolation (db db2 : DB) (uid : Nat) (q : PhotoQuery)
    (page limit : Nat) (r : ℚ)
    (hph : db2.photos.filter (fun p => p.user_id == uid)
      = db.photos.filter (fun p => p.user_id == uid))
    (hrh : db2.registration_histories = db.registration_histories)
    (hsa : db2.specific_aircraft = db.specific_aircraft)
    (hat : db2.aircraft_types = db.aircraft_types) :
    (∀ p ∈ (myPhotos db uid page limit q).data, p.user_id = uid) ∧
    (∀ p ∈ (randomPhotos db uid q r).data, p.user_id = uid) ∧
    myPhotos db2 uid page limit q = myPhotos db uid page limit q ∧
    randomPhotos db2 uid q r = randomPhotos db uid q r := by
  have huser : ∀ p ∈ db.photos.filter (matchesFilters db uid q),
      p.user_id = uid := by
    intro p hp
    rw [List.mem_filter] at hp
    have h2 := hp.2
    unfold matchesFilters at h2
    simp only [Bool.and_eq_true, beq_iff_eq] at h2
    exact h2.1
  have hfull : db2.photos.filter (matchesFilters db2 uid q)
      = db.photos.filter (matchesFilters db uid q) := by
    rw [filter_matches_factor, filter_matches_factor, hph]
    apply List.filter_congr
    intro p hp
    exact restFilters_eq db db2 q p hrh hsa hat
  have hcount : db2.photos.filter (matchesCountFilters db2 uid q)
      = db.photos.filter (matchesCountFilters db uid q) := by
    rw [filter_count_factor, filter_count_factor, hph]
    apply List.filter_congr
    intro p hp
    exact restCountFilters_eq db db2 q p hrh hsa
  refine ⟨?_, ?_, ?_, ?_⟩
  · intro p hp
    have h1 : p ∈ sortByTakenDesc
        (db.photos.filter (matchesFilters db uid q)) :=
      List.mem_of_mem_drop (List.mem_of_mem_take hp)
    exact huser p (mem_sortByTakenDesc.mp h1)
  · unfold randomPhotos
    by_cases hc : ((db.photos.filter
        (matchesCountFilters db uid q)).length == 0) = true
    · rw [if_pos hc]
      intro p hp
      simp at hp
    · rw [if_neg hc]
      intro p hp
      exact huser p (List.mem_of_mem_drop (List.mem_of_mem_take hp))
  · unfold myPhotos
    rw [hfull]
  · unfold randomPhotos
    rw [hfull, hcount]

/-- Second store of the C9 witness: same photos of user 1 as `dbC8`, but
with extra photos of users 2 and 3 interleaved. -/
def dbC9 : DB := { dbC8 with
  photos := [mkPhoto 31 2 (some 2), mkPhoto 11 1 (some 2),
    mkPhoto 12 1 (some 2), mkPhoto 13 1 (some 2), mkPhoto 32 3 none,
    mkPhoto 14 1 (some 2), mkPhoto 15 1 (some 2), mkPhoto 16 1 (some 2),
    mkPhoto 17 1 (some 2), mkPhoto 33 2 (some 2)] }

/-- Witness for C9: adding other users' photos to the store changes
neither user 1's listing page nor user 1's random sample. -/
theorem C9_witness :
    dbC9.photos.filter (fun p => p.user_id == 1)
      = dbC8.photos.filter (fun p => p.user_id == 1) ∧
    (∀ p ∈ (myPhotos dbC8 1 1 9 {}).data, p.user_id = 1) ∧
    (∀ p ∈ (randomPhotos dbC8 1 {} (1/2)).data, p.user_id = 1) ∧
    myPhotos dbC9 1 1 9 {} = myPhotos dbC8 1 1 9 {} ∧
    randomPhotos dbC9 1 {} (1/2) = randomPhotos dbC8 1 {} (1/2) :=
  ⟨by decide,
   (C9_user_isolation dbC8 dbC9 1 {} 1 9 (1/2)
     (by decide) rfl rfl rfl).1,
   (C9_user_isolation dbC8 dbC9 1 {} 1 9 (1/2)
     (by decide) rfl rfl rfl).2.1,
   (C9_user_isolation dbC8 dbC9 1 {} 1 9 (1/2)
     (by decide) rfl rfl rfl).2.2.1,
   (C9_user_isolation dbC8 dbC9 1 {} 1 9 (1/2)
     (by decide) rfl rfl rfl).2.2.2⟩

/-- Full characterization of the reference-counted cleanup, given the
RegistrationHistory row `rh` it targets and that row's SpecificAircraft
row `sa`: the Photo table is untouched; `rh` survives exactly when some
photo still references it; when `rh` is deleted, `sa` survives exactly
when some remaining RegistrationHistory row references it; when a photo
still references `rh`, nothing is deleted; when no photo references
`rh`, no row with its identifier remains; and every SpecificAircraft row
still referenced by a surviving RegistrationHistory row survives. -/
theorem cleanupRH_spec (db : DB) (rhId : Nat) (rh : RegistrationHistory)
    (sa : SpecificAircraft)
    (hrnodup : (db.registration_histories.map
      RegistrationHistory.uuid_rh).Nodup)
    (hrh : rh ∈ db.registration_histories) (hrhid : rh.uuid_rh = rhId)
    (hsa : sa ∈ db.specific_aircraft) (hsaid : sa.uuid = rh.uuid_sa) :
    (cleanupRH db rhId).photos = db.photos ∧
    ((rh ∈ (cleanupRH db rhId).registration_histories) ↔
      ∃ p ∈ db.photos, p.uuid_rh = some rhId) ∧
    (rh ∉ (cleanupRH db rhId).registration_histories →
      ((sa ∈ (cleanupRH db rhId).specific_aircraft) ↔
        ∃ r ∈ (cleanupRH db rhId).registration_histories,
          r.uuid_sa = sa.uuid)) ∧
    ((∃ p ∈ db.photos, p.uuid_rh = some rhId) →
      (cleanupRH db rhId).registration_histories
        = db.registration_histories ∧
      (cleanupRH db rhId).specific_aircraft = db.specific_aircraft) ∧
    ((∀ p ∈ db.photos, ¬ p.uuid_rh = some rhId) →
      ∀ r ∈ (cleanupRH db rhId).registration_histories,
        r.uuid_rh ≠ rhId) ∧
    (∀ s ∈ db.specific_aircraft,
      (∃ r ∈ (cleanupRH db rhId).registration_histories,
        r.uuid_sa = s.uuid) →
      s ∈ (cleanupRH db rhId).specific_aircraft) ∧
    (∀ r ∈ db.registration_histories, r.uuid_rh ≠ rhId →
      r ∈ (cleanupRH db rhId).registration_histories) := by
  unfold cleanupRH
  by_cases hcnt : ((db.photos.filter
      (fun p => p.uuid_rh == some rhId)).length == 0) = true
  · rw [if_pos hcnt]
    have hnil : db.photos.filter (fun p => p.uuid_rh == some rhId)
        = [] := by
      rw [← List.length_eq_zero]
      simpa using hcnt
    have hnone : ∀ p ∈ db.photos, ¬ p.uuid_rh = some rhId := by
      intro p hp hcontra
      have hmem2 : p ∈ db.photos.filter
          (fun p => p.uuid_rh == some rhId) := by
        rw [List.mem_filter]
        exact ⟨hp, by simp [hcontra]⟩
      rw [hnil] at hmem2
      cases hmem2
    have hfind : db.registration_histories.find?
        (fun r => r.uuid_rh == rhId) = some rh :=
      find?_rh db rh rhId hrnodup hrh hrhid
    rw [hfind]
    unfold cleanupSA
    dsimp only
    have hrhnot : rh ∉ db.registration_histories.filter
        (fun r => !(r.uuid_rh == rhId)) := by
      intro hmem2
      rw [List.mem_filter] at hmem2
      simp [hrhid] at hmem2
    have hl2mem : ∀ r, r ∈ db.registration_histories.filter
        (fun r => !(r.uuid_rh == rhId)) → r.uuid_rh ≠ rhId := by
      intro r hmem2
      rw [List.mem_filter] at hmem2
      simpa using hmem2.2
    by_cases hsc : (((db.registration_histories.filter
        (fun r => !(r.uuid_rh == rhId))).filter
          (fun x => x.uuid_sa == rh.uuid_sa)).length == 0) = true
    · rw [if_pos hsc]
      have hsnil : (db.registration_histories.filter
          (fun r => !(r.uuid_rh == rhId))).filter
            (fun x => x.uuid_sa == rh.uuid_sa) = [] := by
        rw [← List.length_eq_zero]
        simpa using hsc
      have hsnone : ∀ r ∈ db.registration_histories.filter
          (fun r => !(r.uuid_rh == rhId)), ¬ r.uuid_sa = rh.uuid_sa := by
        intro r hr2 hcontra
        have hmem2 : r ∈ (db.registration_histories.filter
            (fun r => !(r.uuid_rh == rhId))).filter
              (fun x => x.uuid_sa == rh.uuid_sa) := by
          rw [List.mem_filter]
          exact ⟨hr2, by simp [hcontra]⟩
        rw [hsnil] at hmem2
        cases hmem2
      refine ⟨rfl, ?_, ?_, ?_, ?_, ?_, ?_⟩
      · apply iff_of_false hrhnot
        rintro ⟨p, hp, hpe⟩
        exact hnone p hp hpe
      · intro _
        apply iff_of_false
        · intro hmem2
          rw [List.mem_filter] at hmem2
          simp [hsaid] at hmem2
        · rintro ⟨r, hr2, hre⟩
          exact hsnone r hr2 (by rw [hre, hsaid])
      · rintro ⟨p, hp, hpe⟩
        exact absurd hpe (hnone p hp)
      · intro _
        exact hl2mem
      · rintro s hs ⟨r, hr2, hre⟩
        rw [List.mem_filter]
        refine ⟨hs, ?_⟩
        have hne : ¬ s.uuid = rh.uuid_sa := by
          intro he
          exact hsnone r hr2 (by rw [hre, he])
        simp [hne]
      · intro r hr2 hne
        rw [List.mem_filter]
        exact ⟨hr2, by simp [hne]⟩
    · rw [if_neg hsc]
      have hne0 : (db.registration_histories.filter
          (fun r => !(r.uuid_rh == rhId))).filter
            (fun x => x.uuid_sa == rh.uuid_sa) ≠ [] := by
        intro h0
        rw [h0] at hsc
        simp at hsc
      obtain ⟨r1, hr1mem⟩ := List.exists_mem_of_ne_nil _ hne0
      rw [List.mem_filter] at hr1mem
      have hr1sa : r1.uuid_sa = sa.uuid := by
        have h2 := hr1mem.2
        simp only [beq_iff_eq] at h2
        rw [h2, hsaid]
      refine ⟨rfl, ?_, ?_, ?_, ?_, ?_, ?_⟩
      · apply iff_of_false hrhnot
        rintro ⟨p, hp, hpe⟩
        exact hnone p hp hpe
      · intro _
        exact iff_of_true hsa ⟨r1, hr1mem.1, hr1sa⟩
      · rintro ⟨p, hp, hpe⟩
        exact absurd hpe (hnone p hp)
      · intro _
        exact hl2mem
      · rintro s hs _
        exact hs
      · intro r hr2 hne
        rw [List.mem_filter]
        exact ⟨hr2, by simp [hne]⟩
  · rw [if_neg hcnt]
    have hne0 : db.photos.filter (fun p => p.uuid_rh == some rhId)
        ≠ [] := by
      intro h0
      rw [h0] at hcnt
      simp at hcnt
    obtain ⟨p1, hp1mem⟩ := List.exists_mem_of_ne_nil _ hne0
    rw [List.mem_filter] at hp1mem
    have hex : ∃ p ∈ db.photos, p.uuid_rh = some rhId :=
      ⟨p1, hp1mem.1, by simpa using hp1mem.2⟩
    refine ⟨rfl, iff_of_true hrh hex, fun hnot => absurd hrh hnot,
      fun _ => ⟨rfl, rfl⟩, ?_, fun s hs _ => hs, fun r hr2 _ => hr2⟩
    intro hnone2
    exfalso
    obtain ⟨p, hp, hpe⟩ := hex
    exact hnone2 p hp hpe

/-- Claim C1: for every delete-photo of an owned photo whose
RegistrationHistory reference is set, after the operation completes the
referenced RegistrationHistory row is deleted if and only if no Photo
row references it anymore; when it is deleted, its SpecificAircraft row
is deleted if and only if no other RegistrationHistory row references
that SpecificAircraft; and when another photo still references the
RegistrationHistory, neither the RegistrationHistory nor the
SpecificAircraft row is deleted. -/
theorem C1_delete_cleanup (db : DB) (uid pid rhId : Nat)
    (photo : Photo) (rh : RegistrationHistory) (sa : SpecificAircraft)
    (hpnodup : (db.photos.map Photo.id).Nodup)
    (hrnodup : (db.registration_histories.map
      RegistrationHistory.uuid_rh).Nodup)
    (hmem : photo ∈ db.photos) (hpid : photo.id = pid)
    (huid : photo.user_id = uid) (href : photo.uuid_rh = some rhId)
    (hrh : rh ∈ db.registration_histories) (hrhid : rh.uuid_rh = rhId)
    (hsa : sa ∈ db.specific_aircraft) (hsaid : sa.uuid = rh.uuid_sa) :
    (deletePhoto db uid pid).2
      = Except.ok "Photo deleted and cleanup performed successfully" ∧
    ((rh ∈ (deletePhoto db uid pid).1.registration_histories) ↔
      ∃ p ∈ (deletePhoto db uid pid).1.photos,
        p.uuid_rh = some rhId) ∧
    (rh ∉ (deletePhoto db uid pid).1.registration_histories →
      ((sa ∈ (deletePhoto db uid pid).1.specific_aircraft) ↔
        ∃ r ∈ (deletePhoto db uid pid).1.registration_histories,
          r.uuid_sa = sa.uuid)) ∧
    ((∃ p ∈ (deletePhoto db uid pid).1.photos, p.uuid_rh = some rhId) →
      rh ∈ (deletePhoto db uid pid).1.registration_histories ∧
      sa ∈ (deletePhoto db uid pid).1.specific_aircraft) := by
  have hf := find?_photo db photo pid uid hpnodup hmem hpid huid
  unfold deletePhoto
  rw [hf]
  dsimp only
  rw [href]
  dsimp only
  obtain ⟨c1, c2, c3, c4, c5, c6, c7⟩ := cleanupRH_spec
    { db with photos := db.photos.filter (fun p => !(p.id == pid)) }
    rhId rh sa hrnodup hrh hrhid hsa hsaid
  refine ⟨rfl, ?_, ?_, ?_⟩
  · rw [c1]
    exact c2
  · exact c3
  · rw [c1]
    intro hex
    obtain ⟨h1, h2⟩ := c4 hex
    rw [h1, h2]
    exact ⟨hrh, hsa⟩

/-- Store of the C1 witness: the single photo 7 of user 1 references
RegistrationHistory 2, the only row on SpecificAircraft 1; deleting the
photo cascades both deletions. -/
def dbC1 : DB := { emptyDB with
  photos := [mkPhoto 7 1 (some 2)],
  specific_aircraft := [mkSA 1 "B738"],
  registration_histories := [mkRH 2 1 "N555XY"] }

theorem C1_witness :
    (dbC1.photos.map Photo.id).Nodup ∧
    (dbC1.registration_histories.map
      RegistrationHistory.uuid_rh).Nodup ∧
    mkPhoto 7 1 (some 2) ∈ dbC1.photos ∧
    mkRH 2 1 "N555XY" ∈ dbC1.registration_histories ∧
    mkSA 1 "B738" ∈ dbC1.specific_aircraft ∧
    ((deletePhoto dbC1 1 7).2
      = Except.ok "Photo deleted and cleanup performed successfully" ∧
    ((mkRH 2 1 "N555XY"
        ∈ (deletePhoto dbC1 1 7).1.registration_histories) ↔
      ∃ p ∈ (deletePhoto dbC1 1 7).1.photos, p.uuid_rh = some 2) ∧
    (mkRH 2 1 "N555XY"
        ∉ (deletePhoto dbC1 1 7).1.registration_histories →
      ((mkSA 1 "B738" ∈ (deletePhoto dbC1 1 7).1.specific_aircraft) ↔
        ∃ r ∈ (deletePhoto dbC1 1 7).1.registration_histories,
          r.uuid_sa = (mkSA 1 "B738").uuid)) ∧
    ((∃ p ∈ (deletePhoto dbC1 1 7).1.photos, p.uuid_rh = some 2) →
      mkRH 2 1 "N555XY"
        ∈ (deletePhoto dbC1 1 7).1.registration_histories ∧
      mkSA 1 "B738" ∈ (deletePhoto dbC1 1 7).1.specific_aircraft)) :=
  ⟨by decide, by decide, by decide, by decide, by decide,
   C1_delete_cleanup dbC1 1 7 2 (mkPhoto 7 1 (some 2))
     (mkRH 2 1 "N555XY") (mkSA 1 "B738")
     (by decide) (by decide) (by decide) rfl rfl rfl
     (by decide) rfl (by decide) rfl⟩

/-- An explicitly supplied uuid_rh different from the old reference is
used as the new reference, with no store change. -/
theorem resolveRHUpdate_explicit (db : DB) (old : Option Nat)
    (req : UpdatePhotoReq) (B : Nat) (h : req.uuid_rh = some B)
    (hne : some B ≠ old) :
    resolveRHUpdate db old req = (db, some B) := by
  simp [resolveRHUpdate, h, hne]

/-- Without an explicit uuid_rh and a falsy aircraft_type_id, a
registration whose lookup finds a first row resolves to that row's
identifier, with no store change. -/
theorem resolveRHUpdate_lookup_found (db : DB) (old : Option Nat)
    (req : UpdatePhotoReq) (r0 : RegistrationHistory)
    (h1 : req.uuid_rh = none) (h2 : truthy req.aircraft_type_id = false)
    (h3 : truthy req.registration = true)
    (h4 : (db.registration_histories.filter (fun r =>
      r.registration == upper (req.registration.getD ""))).head?
        = some r0) :
    resolveRHUpdate db old req = (db, some r0.uuid_rh) := by
  simp [resolveRHUpdate, h1, h2, h3, h4]

/-- Claim C2: for every update-photo that re-points a photo's
RegistrationHistory reference from A to B (B either explicitly supplied
or resolved from a registration string, B ≠ A), where A had exactly one
referencing photo: the photo's reference becomes B, A's row is deleted,
A's SpecificAircraft row is deleted exactly when no remaining
RegistrationHistory references it, and B's row and B's SpecificAircraft
row survive untouched. -/
theorem C2_update_repoint (db : DB) (uid pid A B : Nat)
    (fa : Option String) (req : UpdatePhotoReq) (photo : Photo)
    (rhA rhB : RegistrationHistory) (saA saB : SpecificAircraft)
    (hpnodup : (db.photos.map Photo.id).Nodup)
    (hrnodup : (db.registration_histories.map
      RegistrationHistory.uuid_rh).Nodup)
    (hmem : photo ∈ db.photos) (hpid : photo.id = pid)
    (huid : photo.user_id = uid) (hold : photo.uuid_rh = some A)
    (honly : ∀ p ∈ db.photos, p.uuid_rh = some A → p.id = pid)
    (hrhA : rhA ∈ db.registration_histories) (hrhAid : rhA.uuid_rh = A)
    (hrhB : rhB ∈ db.registration_histories) (hrhBid : rhB.uuid_rh = B)
    (hAB : B ≠ A)
    (hsaA : saA ∈ db.specific_aircraft) (hsaAid : saA.uuid = rhA.uuid_sa)
    (hsaB : saB ∈ db.specific_aircraft) (hsaBid : saB.uuid = rhB.uuid_sa)
    (hresolve : req.uuid_rh = some B ∨
      (req.uuid_rh = none ∧ truthy req.aircraft_type_id = false ∧
       truthy req.registration = true ∧
       (db.registration_histories.filter (fun r =>
         r.registration == upper (req.registration.getD ""))).head?
           = some rhB))
    (hair : (resolveAirportUpdate db req).2 = Except.ok fa) :
    (updatePhoto db uid pid req).2
      = Except.ok "Photo updated successfully" ∧
    (∃ p ∈ (updatePhoto db uid pid req).1.photos,
      p.id = pid ∧ p.uuid_rh = some B) ∧
    (∀ r ∈ (updatePhoto db uid pid req).1.registration_histories,
      r.uuid_rh ≠ A) ∧
    ((saA ∈ (updatePhoto db uid pid req).1.specific_aircraft) ↔
      ∃ r ∈ (updatePhoto db uid pid req).1.registration_histories,
        r.uuid_sa = saA.uuid) ∧
    rhB ∈ (updatePhoto db uid pid req).1.registration_histories ∧
    saB ∈ (updatePhoto db uid pid req).1.specific_aircraft := by
  have hf := find?_photo db photo pid uid hpnodup hmem hpid huid
  rcases hA : resolveAirportUpdate db req with ⟨db1, e⟩
  rw [hA] at hair
  obtain ⟨hap, har, has, hau⟩ :=
    resolveAirportUpdate_preserved db db1 req e hA
  have he : e = Except.ok fa := hair
  subst he
  have hBA : some B ≠ some A := by simp [hAB]
  have hR : resolveRHUpdate db1 photo.uuid_rh req = (db1, some B) := by
    rcases hresolve with h | ⟨h1, h2, h3, h4⟩
    · apply resolveRHUpdate_explicit db1 photo.uuid_rh req B h
      rw [hold]
      exact hBA
    · have h5 := resolveRHUpdate_lookup_found db1 photo.uuid_rh req rhB
        h1 h2 h3 (by rw [har]; exact h4)
      rw [hrhBid] at h5
      exact h5
  unfold updatePhoto
  rw [hf]
  dsimp only
  rw [hA]
  dsimp only
  rw [hR]
  dsimp only
  rw [hold]
  rw [if_pos hBA]
  dsimp only
  obtain ⟨c1, c2, c3, c4, c5, c6, c7⟩ := cleanupRH_spec
    { db1 with photos := db1.photos.map (fun p =>
        if p.id == pid && p.user_id == uid then
          applyUpdates p req fa (some B) (some A)
        else p) } A rhA saA
    (har.symm ▸ hrnodup) (har.symm ▸ hrhA) hrhAid
    (has.symm ▸ hsaA) hsaAid
  have hnoneA : ∀ p ∈ db1.photos.map (fun p =>
      if p.id == pid && p.user_id == uid then
        applyUpdates p req fa (some B) (some A)
      else p), ¬ p.uuid_rh = some A := by
    intro p hp hcontra
    rw [List.mem_map] at hp
    obtain ⟨p0, hp0, hfp⟩ := hp
    rw [hap] at hp0
    by_cases hcond : (p0.id == pid && p0.user_id == uid) = true
    · rw [if_pos hcond] at hfp
      have hB2 : p.uuid_rh = some B := by
        rw [← hfp]
        unfold applyUpdates
        simp [hBA]
      rw [hB2] at hcontra
      exact hBA hcontra
    · rw [if_neg hcond] at hfp
      have hrefA : p0.uuid_rh = some A := by rw [hfp]; exact hcontra
      have hid0 : p0.id = pid := honly p0 hp0 hrefA
      have hpp : p0 = photo :=
        List.inj_on_of_nodup_map hpnodup hp0 hmem (by rw [hid0, hpid])
      apply hcond
      rw [hpp]
      simp [hpid, huid]
  have hrhBsurv : rhB ∈ (cleanupRH
      { db1 with photos := db1.photos.map (fun p =>
          if p.id == pid && p.user_id == uid then
            applyUpdates p req fa (some B) (some A)
          else p) } A).registration_histories :=
    c7 rhB (har.symm ▸ hrhB) (by rw [hrhBid]; exact hAB)
  have hrhAnot : rhA ∉ (cleanupRH
      { db1 with photos := db1.photos.map (fun p =>
          if p.id == pid && p.user_id == uid then
            applyUpdates p req fa (some B) (some A)
          else p) } A).registration_histories := by
    intro hmem4
    obtain ⟨p, hp, hpe⟩ := c2.mp hmem4
    exact hnoneA p hp hpe
  refine ⟨rfl, ?_, ?_, ?_, ?_, ?_⟩
  · rw [c1]
    refine ⟨applyUpdates photo req fa (some B) (some A), ?_, hpid, ?_⟩
    · rw [List.mem_map]
      exact ⟨photo, hap.symm ▸ hmem, by rw [if_pos (by simp [hpid, huid])]⟩
    · unfold applyUpdates
      simp [hBA]
  · exact c5 hnoneA
  · exact c3 hrhAnot
  · exact hrhBsurv
  · exact c6 saB (has.symm ▸ hsaB) ⟨rhB, hrhBsurv, hsaBid.symm⟩

/-- Store of the C2 witness: photo 7 of user 1 is the only photo
referencing RegistrationHistory 2 (on SpecificAircraft 1);
RegistrationHistory 4 (on SpecificAircraft 3) is the re-point target. -/
def dbC2 : DB := { emptyDB with
  photos := [mkPhoto 7 1 (some 2)],
  specific_aircraft := [mkSA 1 "B738", mkSA 3 "A20N"],
  registration_histories := [mkRH 2 1 "N111AA", mkRH 4 3 "N222BB"] }

/-- Update request explicitly re-pointing to RegistrationHistory 4. -/
def reqC2 : UpdatePhotoReq := { uuid_rh := some 4 }

theorem C2_witness :
    (dbC2.photos.map Photo.id).Nodup ∧
    (dbC2.registration_histories.map
      RegistrationHistory.uuid_rh).Nodup ∧
    mkPhoto 7 1 (some 2) ∈ dbC2.photos ∧
    (∀ p ∈ dbC2.photos, p.uuid_rh = some 2 → p.id = 7) ∧
    mkRH 2 1 "N111AA" ∈ dbC2.registration_histories ∧
    mkRH 4 3 "N222BB" ∈ dbC2.registration_histories ∧
    (4 : Nat) ≠ 2 ∧
    mkSA 1 "B738" ∈ dbC2.specific_aircraft ∧
    mkSA 3 "A20N" ∈ dbC2.specific_aircraft ∧
    reqC2.uuid_rh = some 4 ∧
    (resolveAirportUpdate dbC2 reqC2).2 = Except.ok none ∧
    ((updatePhoto dbC2 1 7 reqC2).2
      = Except.ok "Photo updated successfully" ∧
    (∃ p ∈ (updatePhoto dbC2 1 7 reqC2).1.photos,
      p.id = 7 ∧ p.uuid_rh = some 4) ∧
    (∀ r ∈ (updatePhoto dbC2 1 7 reqC2).1.registration_histories,
      r.uuid_rh ≠ 2) ∧
    ((mkSA 1 "B738" ∈ (updatePhoto dbC2 1 7 reqC2).1.specific_aircraft)
      ↔ ∃ r ∈ (updatePhoto dbC2 1 7 reqC2).1.registration_histories,
          r.uuid_sa = (mkSA 1 "B738").uuid) ∧
    mkRH 4 3 "N222BB"
      ∈ (updatePhoto dbC2 1 7 reqC2).1.registration_histories ∧
    mkSA 3 "A20N" ∈ (updatePhoto dbC2 1 7 reqC2).1.specific_aircraft) :=
  ⟨by decide, by decide, by decide, by decide, by decide, by decide,
   by decide, by decide, by decide, rfl, rfl,
   C2_update_repoint dbC2 1 7 2 4 none reqC2 (mkPhoto 7 1 (some 2))
     (mkRH 2 1 "N111AA") (mkRH 4 3 "N222BB") (mkSA 1 "B738")
     (mkSA 3 "A20N")
     (by decide) (by decide) (by decide) rfl rfl rfl (by decide)
     (by decide) rfl (by decide) rfl (by decide) (by decide) rfl
     (by decide) rfl (Or.inl rfl) rfl⟩

/-- resolveRHUpdate never touches the Photo table. -/
theorem resolveRHUpdate_photos (db : DB) (old : Option Nat)
    (req : UpdatePhotoReq) :
    (resolveRHUpdate db old req).1.photos = db.photos := by
  rcases hn : req.uuid_rh with _ | n
  · by_cases hr : truthy req.registration = true
    · by_cases hat2 : truthy req.aircraft_type_id = true
      · simp [resolveRHUpdate, hn, hr, hat2]
      · rw [Bool.not_eq_true] at hat2
        rcases hh : (db.registration_histories.filter (fun r =>
            r.registration == upper (req.registration.getD ""))).head?
          with _ | r0
        · simp [resolveRHUpdate, hn, hr, hat2, hh]
        · simp [resolveRHUpdate, hn, hr, hat2, hh]
    · simp [resolveRHUpdate, hn, hr]
  · by_cases hne : some n ≠ old
    · simp [resolveRHUpdate, hn, hne]
    · simp [resolveRHUpdate, hn, hne]

/-- Claim C10: every successful update-photo overwrites all six
camera-metadata fields of the photo with the request's values (null for
a missing or empty field — the old value is not preserved), while the
photo's RegistrationHistory reference ends up as the newly resolved
reference, which is written only when it differs from the old one (and
therefore equals the old one otherwise). -/
theorem C10_metadata_overwrite (db : DB) (uid pid : Nat)
    (req : UpdatePhotoReq) (photo : Photo) (fa : Option String)
    (hpnodup : (db.photos.map Photo.id).Nodup)
    (hmem : photo ∈ db.photos) (hpid : photo.id = pid)
    (huid : photo.user_id = uid)
    (hair : (resolveAirportUpdate db req).2 = Except.ok fa) :
    (updatePhoto db uid pid req).2
      = Except.ok "Photo updated successfully" ∧
    (∃ p ∈ (updatePhoto db uid pid req).1.photos, p.id = pid) ∧
    (∀ p ∈ (updatePhoto db uid pid req).1.photos, p.id = pid →
      p.taken_at = orNull req.taken_at ∧
      p.shutter_speed = orNull req.shutter_speed ∧
      p.iso = orNull req.iso ∧
      p.aperture = orNull req.aperture ∧
      p.camera_model = orNull req.camera_model ∧
      p.focal_length = orNull req.focal_length ∧
      p.uuid_rh = (resolveRHUpdate (resolveAirportUpdate db req).1
        photo.uuid_rh req).2) := by
  have hf := find?_photo db photo pid uid hpnodup hmem hpid huid
  rcases hA : resolveAirportUpdate db req with ⟨db1, e⟩
  rw [hA] at hair
  obtain ⟨hap, har, has, hau⟩ :=
    resolveAirportUpdate_preserved db db1 req e hA
  have he : e = Except.ok fa := hair
  subst he
  rcases hR : resolveRHUpdate db1 photo.uuid_rh req with ⟨db2, finalRH⟩
  have hp2 : db2.photos = db1.photos := by
    have h0 := resolveRHUpdate_photos db1 photo.uuid_rh req
    rw [hR] at h0
    exact h0
  unfold updatePhoto
  rw [hf]
  dsimp only
  rw [hA]
  dsimp only
  try rw [hR]
  dsimp only
  have hmain : ∀ p ∈ db2.photos.map (fun p =>
      if p.id == pid && p.user_id == uid then
        applyUpdates p req fa finalRH photo.uuid_rh
      else p), p.id = pid →
      p.taken_at = orNull req.taken_at ∧
      p.shutter_speed = orNull req.shutter_speed ∧
      p.iso = orNull req.iso ∧
      p.aperture = orNull req.aperture ∧
      p.camera_model = orNull req.camera_model ∧
      p.focal_length = orNull req.focal_length ∧
      p.uuid_rh = finalRH := by
    intro p hp hpid2
    rw [List.mem_map] at hp
    obtain ⟨p0, hp0, hfp⟩ := hp
    rw [hp2, hap] at hp0
    by_cases hcond : (p0.id == pid && p0.user_id == uid) = true
    · rw [if_pos hcond] at hfp
      have hid0 : p0.id = pid := by
        simp only [Bool.and_eq_true, beq_iff_eq] at hcond
        exact hcond.1
      have hpp : p0 = photo :=
        List.inj_on_of_nodup_map hpnodup hp0 hmem (by rw [hid0, hpid])
      rw [← hfp]
      refine ⟨rfl, rfl, rfl, rfl, rfl, rfl, ?_⟩
      unfold applyUpdates
      dsimp only
      by_cases hfin : finalRH ≠ photo.uuid_rh
      · rw [if_pos hfin]
      · rw [if_neg hfin, hpp]
        push_neg at hfin
        exact hfin.symm
    · rw [if_neg hcond] at hfp
      exfalso
      have hpp : p0 = photo :=
        List.inj_on_of_nodup_map hpnodup hp0 hmem
          (by rw [hfp, hpid2, hpid])
      apply hcond
      rw [hpp]
      simp [hpid, huid]
  have hex : ∃ p ∈ db2.photos.map (fun p =>
      if p.id == pid && p.user_id == uid then
        applyUpdates p req fa finalRH photo.uuid_rh
      else p), p.id = pid := by
    refine ⟨applyUpdates photo req fa finalRH photo.uuid_rh, ?_, hpid⟩
    rw [List.mem_map]
    refine ⟨photo, ?_, by rw [if_pos (by simp [hpid, huid])]⟩
    rw [hp2, hap]
    exact hmem
  by_cases hfin2 : finalRH ≠ photo.uuid_rh
  · rw [if_pos hfin2]
    rcases ho : photo.uuid_rh with _ | o
    · rw [ho] at hmain hex
      exact ⟨rfl, hex, hmain⟩
    · rw [ho] at hmain hex
      rw [(cleanupRH_sublist _ o).2.2]
      exact ⟨rfl, hex, hmain⟩
  · rw [if_neg hfin2]
    exact ⟨rfl, hex, hmain⟩

/-- Photo of the C10 witness, with every metadata field set, so the
overwrite with the request's sparser values is observable. -/
def photoC10 : Photo :=
  { id := 7, user_id := 1, uuid_rh := some 2,
    airport_code := some "KJFK", image_url := some "u",
    taken_at := some "2024-01-01", shutter_speed := some "1/500",
    iso := some "100", aperture := some "f4",
    camera_model := some "X-T5", focal_length := some "50" }

def dbC10 : DB := { emptyDB with
  photos := [photoC10],
  specific_aircraft := [mkSA 1 "B738"],
  registration_histories := [mkRH 2 1 "N1"] }

/-- Update request that sets taken_at, sends iso as the empty string and
omits the other four metadata fields. -/
def reqC10 : UpdatePhotoReq :=
  { taken_at := some "2025-05-05", iso := some "" }

theorem C10_witness :
    (dbC10.photos.map Photo.id).Nodup ∧
    photoC10 ∈ dbC10.photos ∧ photoC10.id = 7 ∧
    photoC10.user_id = 1 ∧
    (resolveAirportUpdate dbC10 reqC10).2 = Except.ok none ∧
    ((updatePhoto dbC10 1 7 reqC10).2
      = Except.ok "Photo updated successfully" ∧
    (∃ p ∈ (updatePhoto dbC10 1 7 reqC10).1.photos, p.id = 7) ∧
    (∀ p ∈ (updatePhoto dbC10 1 7 reqC10).1.photos, p.id = 7 →
      p.taken_at = orNull reqC10.taken_at ∧
      p.shutter_speed = orNull reqC10.shutter_speed ∧
      p.iso = orNull reqC10.iso ∧
      p.aperture = orNull reqC10.aperture ∧
      p.camera_model = orNull reqC10.camera_model ∧
      p.focal_length = orNull reqC10.focal_length ∧
      p.uuid_rh = (resolveRHUpdate (resolveAirportUpdate dbC10 reqC10).1
        photoC10.uuid_rh reqC10).2)) :=
  ⟨by decide, by decide, rfl, rfl, rfl,
   C10_metadata_overwrite dbC10 1 7 reqC10 photoC10 none
     (by decide) (by decide) rfl rfl rfl⟩

end SpottersJournal
